import Mathlib

/-!
Verification of the HT-SOLS microscope core (ht_sols_microscope.py).

Shallow embedding conventions:
* Python ints are modelled as `ℤ` (or `ℕ` for quantities that are
  non-negative by construction, such as list lengths and loop counts).
* Python float arithmetic is modelled over `ℚ`; the float64 trigonometric
  constants np.tan(tilt), np.cos(tilt), np.sin(tilt) (tilt = 55 degrees)
  are abstracted as positive rational parameters, since their runtime
  values are particular dyadic rationals.
* Python's builtin round / np.rint (round half to even, banker's
  rounding) is modelled by `pyRound`; Python's int() truncation toward
  zero by `pyInt`.
* Fallible code (dict lookups that can raise KeyError, assert
  statements) returns `Option` / `Except`.
-/

/-- Floor of a rational, written so it evaluates by kernel reduction. -/
def ratFloor (q : ℚ) : ℤ := q.num / (q.den : ℤ)

theorem ratFloor_eq (q : ℚ) : ratFloor q = ⌊q⌋ := Rat.floor_def.symm

/-- Ceiling of a rational, written so it evaluates by kernel reduction. -/
def ratCeil (q : ℚ) : ℤ := -(ratFloor (-q))

theorem ratCeil_eq (q : ℚ) : ratCeil q = ⌈q⌉ := by
  rw [ratCeil, ratFloor_eq, ← Int.ceil_neg, neg_neg]

/-- Python's builtin round (and np.rint): round half to even. -/
def pyRound (q : ℚ) : ℤ :=
  let f := ratFloor q
  let r := q - (f : ℚ)
  if r < 1/2 then f
  else if 1/2 < r then f + 1
  else if f % 2 = 0 then f else f + 1

/-- Python's int() applied to a float: truncation toward zero. -/
def pyInt (q : ℚ) : ℤ :=
  if 0 ≤ q then ratFloor q else ratCeil q

theorem pyRound_intCast (n : ℤ) : pyRound (n : ℚ) = n := by
  unfold pyRound
  rw [ratFloor_eq, Int.floor_intCast]
  norm_num

theorem pyRound_zero : pyRound 0 = 0 := by
  simpa using pyRound_intCast 0

/-! ## Optical configuration constants (module level, source lines 36-38) -/

/-- Source: M1 = 200 / 5. -/
def M1 : ℚ := 200 / 5

/-- Source: Mscan = 100 / 100. -/
def Mscan : ℚ := 100 / 100

/-- Source: M3 = 250 / 9. -/
def M3 : ℚ := 250 / 9

/-- Source: camera_px_um = 6.5. -/
def camera_px_um : ℚ := 13 / 2

/-! ## Scan-geometry legalization (source lines 914-931)

Each function takes the relevant trigonometric constant of the fixed
tilt angle (np.cos(tilt), np.tan(tilt)) as an explicit rational
parameter `cosTilt` / `tanTilt`. -/

/-- Source: calculate_scan_step_size_um(sample_px_um, scan_step_size_px) =
scan_step_size_px * sample_px_um / np.cos(tilt). -/
def calculate_scan_step_size_um (cosTilt sample_px_um : ℚ)
    (scan_step_size_px : ℤ) : ℚ :=
  (scan_step_size_px : ℚ) * sample_px_um / cosTilt

/-- Source: calculate_scan_range_um = scan_step_size_um * (slices_per_volume - 1). -/
def calculate_scan_range_um (cosTilt sample_px_um : ℚ)
    (scan_step_size_px slices_per_volume : ℤ) : ℚ :=
  calculate_scan_step_size_um cosTilt sample_px_um scan_step_size_px *
    ((slices_per_volume : ℚ) - 1)

/-- Source: calculate_voxel_aspect_ratio(scan_step_size_px) =
scan_step_size_px * np.tan(tilt). -/
def calculate_voxel_aspect_ratio (tanTilt : ℚ) (scan_step_size_px : ℤ) : ℚ :=
  (scan_step_size_px : ℚ) * tanTilt

/-- Source: calculate_cuboid_voxel_scan(sample_px_um, voxel_aspect_ratio,
scan_range_um); returns (scan_step_size_px, slices_per_volume). -/
def calculate_cuboid_voxel_scan (tanTilt cosTilt sample_px_um
    voxel_aspect_ratio scan_range_um : ℚ) : ℤ × ℤ :=
  let scan_step_size_px := max (pyRound (voxel_aspect_ratio / tanTilt)) 1
  let scan_step_size_um :=
    calculate_scan_step_size_um cosTilt sample_px_um scan_step_size_px
  let slices_per_volume := 1 + pyRound (scan_range_um / scan_step_size_um)
  (scan_step_size_px, slices_per_volume)

/-- C2: for every sample_px_um > 0, requested voxel_aspect_ratio and
scan_range_um ≥ 0, legalization computes
scan_step_size_px = max(round(voxel_aspect_ratio / tan(tilt)), 1) as an
integer ≥ 1, re-derives scan_step_size_um from that integer step, computes
slices_per_volume = 1 + round(scan_range_um / scan_step_size_um), and the
reported achieved scan range equals scan_step_size_um * (slices_per_volume - 1). -/
theorem C2_legalization_formulas (tanTilt cosTilt sample_px_um
    voxel_aspect_ratio scan_range_um : ℚ)
    (hs : 0 < sample_px_um) (hr : 0 ≤ scan_range_um)
    (ht : 0 < tanTilt) (hc : 0 < cosTilt) :
    (calculate_cuboid_voxel_scan tanTilt cosTilt sample_px_um
        voxel_aspect_ratio scan_range_um).1 =
      max (pyRound (voxel_aspect_ratio / tanTilt)) 1 ∧
    1 ≤ (calculate_cuboid_voxel_scan tanTilt cosTilt sample_px_um
        voxel_aspect_ratio scan_range_um).1 ∧
    (calculate_cuboid_voxel_scan tanTilt cosTilt sample_px_um
        voxel_aspect_ratio scan_range_um).2 =
      1 + pyRound (scan_range_um /
        calculate_scan_step_size_um cosTilt sample_px_um
          (calculate_cuboid_voxel_scan tanTilt cosTilt sample_px_um
            voxel_aspect_ratio scan_range_um).1) ∧
    calculate_scan_range_um cosTilt sample_px_um
        (calculate_cuboid_voxel_scan tanTilt cosTilt sample_px_um
          voxel_aspect_ratio scan_range_um).1
        (calculate_cuboid_voxel_scan tanTilt cosTilt sample_px_um
          voxel_aspect_ratio scan_range_um).2 =
      calculate_scan_step_size_um cosTilt sample_px_um
          (calculate_cuboid_voxel_scan tanTilt cosTilt sample_px_um
            voxel_aspect_ratio scan_range_um).1 *
        (((calculate_cuboid_voxel_scan tanTilt cosTilt sample_px_um
            voxel_aspect_ratio scan_range_um).2 : ℚ) - 1) :=
  ⟨rfl, le_max_right _ _, rfl, rfl⟩

theorem C2_legalization_formulas_witness :
    (calculate_cuboid_voxel_scan (10/7) (4/7) 1 2 50).1 =
      max (pyRound (2 / (10/7))) 1 ∧
    1 ≤ (calculate_cuboid_voxel_scan (10/7) (4/7) 1 2 50).1 := by
  have h := C2_legalization_formulas (10/7) (4/7) 1 2 50
    (by norm_num) (by norm_num) (by norm_num) (by norm_num)
  exact ⟨h.1, h.2.1⟩

/-- C3: re-deriving the achieved voxel_aspect_ratio from an integer step
p ≥ 1 and legalizing again yields the same integer step p. -/
theorem C3_legalization_idempotent (tanTilt cosTilt sample_px_um
    scan_range_um : ℚ) (p : ℤ) (hp : 1 ≤ p) (ht : 0 < tanTilt) :
    (calculate_cuboid_voxel_scan tanTilt cosTilt sample_px_um
        (calculate_voxel_aspect_ratio tanTilt p) scan_range_um).1 = p := by
  unfold calculate_cuboid_voxel_scan calculate_voxel_aspect_ratio
  have hdiv : (p : ℚ) * tanTilt / tanTilt = (p : ℚ) :=
    mul_div_cancel_right₀ _ ht.ne'
  rw [hdiv, pyRound_intCast]
  exact max_eq_left hp

theorem C3_legalization_idempotent_witness :
    (calculate_cuboid_voxel_scan (10/7) (4/7) 1
        (calculate_voxel_aspect_ratio (10/7) 3) 50).1 = 3 :=
  C3_legalization_idempotent (10/7) (4/7) 1 50 3 (by norm_num) (by norm_num)

/-! ## 5-D stacks and DataNative (source lines 1192-1213)

A raw 5-D stack in tzcyx order.  `val` gives the pixel value at
(volume, slice, channel, row, column); indices outside the shape read 0,
matching the zero-initialized numpy backing array. -/

structure Stack5 where
  vo : ℕ
  slices : ℕ
  ch : ℕ
  h : ℕ
  w : ℕ
  val : ℕ → ℕ → ℕ → ℕ → ℕ → ℕ

/-- Source: DataNative.get(data, scan_step_size_px).  For integer
scan_step_size_px the pixel shear int(np.rint(i * scan_step_size_px)) is
exactly i * scan_step_size_px, and scan_step_px_max =
scan_step_size_px * (slices - 1).  Each slice image is copied into a
zero-initialized taller stack at vertical offset i * scan_step_size_px. -/
def DataNative_get (data : Stack5) (scan_step_size_px : ℕ) : Stack5 :=
  let prop_px := data.h
  let scan_step_px_max := scan_step_size_px * (data.slices - 1)
  { vo := data.vo
    slices := data.slices
    ch := data.ch
    h := prop_px + scan_step_px_max
    w := data.w
    val := fun v i c y x =>
      let prop_px_shear := i * scan_step_size_px
      if v < data.vo ∧ i < data.slices ∧ c < data.ch ∧ x < data.w ∧
          prop_px_shear ≤ y ∧ y < prop_px + prop_px_shear then
        data.val v i c (y - prop_px_shear) x
      else 0 }

/-- C5: for every 5-D stack and integer scan_step_size_px ≥ 1,
DataNative.get returns a stack of shape
(vo, slices, ch, h + (slices-1)*scan_step_size_px, w); slice i of each
volume/channel appears pixel-exact at vertical offset i*scan_step_size_px,
and every pixel outside the placed slice regions is zero. -/
theorem C5_native_view (data : Stack5) (s : ℕ) (hs : 1 ≤ s) :
    (DataNative_get data s).vo = data.vo ∧
    (DataNative_get data s).slices = data.slices ∧
    (DataNative_get data s).ch = data.ch ∧
    (DataNative_get data s).h = data.h + (data.slices - 1) * s ∧
    (DataNative_get data s).w = data.w ∧
    (∀ v i c y x, v < data.vo → i < data.slices → c < data.ch →
      y < data.h → x < data.w →
      (DataNative_get data s).val v i c (i * s + y) x = data.val v i c y x) ∧
    (∀ v i c y x, v < data.vo → i < data.slices → c < data.ch → x < data.w →
      ¬(i * s ≤ y ∧ y < data.h + i * s) →
      (DataNative_get data s).val v i c y x = 0) := by
  refine ⟨rfl, rfl, rfl, by simp [DataNative_get, Nat.mul_comm], rfl, ?_, ?_⟩
  · intro v i c y x hv hi hc hy hx
    have hle : i * s ≤ i * s + y := Nat.le_add_right _ _
    have hlt : i * s + y < data.h + i * s := by omega
    simp only [DataNative_get]
    rw [if_pos ⟨hv, hi, hc, hx, hle, hlt⟩]
    congr 1
    omega
  · intro v i c y x hv hi hc hx hout
    simp only [DataNative_get]
    rw [if_neg]
    intro hcond
    exact hout ⟨hcond.2.2.2.2.1, hcond.2.2.2.2.2⟩

/-- Concrete witness stack for C5. -/
def stack5Example : Stack5 :=
  { vo := 1, slices := 2, ch := 1, h := 3, w := 2
    val := fun _ i _ y x => 100 * i + 10 * y + x + 1 }

theorem C5_native_view_witness :
    (DataNative_get stack5Example 2).h =
      stack5Example.h + (stack5Example.slices - 1) * 2 :=
  (C5_native_view stack5Example 2 (by norm_num)).2.2.2.1

/-! ## Buffer pool (source lines 480-504)

The counters num_active_data_buffers / num_active_preview_buffers and the
acquire/release operations of _get_data_buffer, _release_data_buffer,
_get_preview_buffer, _release_preview_buffer, as a transition system.
An acquire busy-polls while the count is at its maximum, so it proceeds
(and increments) only when the count is strictly below the maximum;
a release decrements. -/

structure BufferState where
  num_active_data_buffers : ℤ
  num_active_preview_buffers : ℤ

/-- One buffer-pool operation (source lines 480-504). -/
inductive BufferStep (max_data_buffers max_preview_buffers : ℤ) :
    BufferState → BufferState → Prop
  | acquireData (s : BufferState)
      (hguard : s.num_active_data_buffers < max_data_buffers) :
      BufferStep max_data_buffers max_preview_buffers s
        { s with num_active_data_buffers := s.num_active_data_buffers + 1 }
  | releaseData (s : BufferState) :
      BufferStep max_data_buffers max_preview_buffers s
        { s with num_active_data_buffers := s.num_active_data_buffers - 1 }
  | acquirePreview (s : BufferState)
      (hguard : s.num_active_preview_buffers < max_preview_buffers) :
      BufferStep max_data_buffers max_preview_buffers s
        { s with num_active_preview_buffers :=
            s.num_active_preview_buffers + 1 }
  | releasePreview (s : BufferState) :
      BufferStep max_data_buffers max_preview_buffers s
        { s with num_active_preview_buffers :=
            s.num_active_preview_buffers - 1 }

/-- Initial state (source lines 131-132): both counters are 0. -/
def bufferInit : BufferState :=
  { num_active_data_buffers := 0, num_active_preview_buffers := 0 }

/-- C8: over every sequence of buffer acquire/release operations, the
count of outstanding data buffers never exceeds max_data_buffers and
the count of outstanding preview buffers never exceeds
max_preview_buffers. -/
theorem C8_buffer_counts_bounded (max_data_buffers max_preview_buffers : ℤ)
    (hD : 0 ≤ max_data_buffers) (hP : 0 ≤ max_preview_buffers)
    (s : BufferState)
    (hreach : Relation.ReflTransGen
      (BufferStep max_data_buffers max_preview_buffers) bufferInit s) :
    s.num_active_data_buffers ≤ max_data_buffers ∧
    s.num_active_preview_buffers ≤ max_preview_buffers := by
  induction hreach with
  | refl => exact ⟨hD, hP⟩
  | tail _ hstep ih =>
    cases hstep with
    | acquireData hguard => exact ⟨by simp only; omega, ih.2⟩
    | releaseData => exact ⟨by simp only; omega, ih.2⟩
    | acquirePreview hguard => exact ⟨ih.1, by simp only; omega⟩
    | releasePreview => exact ⟨ih.1, by simp only; omega⟩

theorem C8_buffer_counts_bounded_witness :
    bufferInit.num_active_data_buffers ≤ 4 ∧
    bufferInit.num_active_preview_buffers ≤ 4 :=
  C8_buffer_counts_bounded 4 4 (by norm_num) (by norm_num) bufferInit
    Relation.ReflTransGen.refl

/-! ## Waveform synthesis (source lines 227-254, 313-373)

Model of Microscope._calculate_voltages.  The analog-output card's
sample-conversion helper ao.s2p (external driver ni_PCIe_6738) is
abstracted: the configuration carries the already-converted sample
counts exposure_px, rolling_px and jitter_raw_px (= ao.s2p(30e-6),
before the max with 1).  Dictionary lookups in names_to_voltage_channels
can raise KeyError, modelled by Option. -/

/-- Source lines 230-251: names_to_voltage_channels (commented-out
entries omitted, as in the source). -/
def names_to_voltage_channels : List (String × ℕ) :=
  [("405_TTL", 0), ("405_power", 1),
   ("488_TTL", 4), ("488_power", 5),
   ("561_TTL", 6), ("561_power", 7),
   ("640_TTL", 8), ("640_power", 9),
   ("LED_power", 10),
   ("camera", 11), ("galvo", 12),
   ("LSx_BFP", 16), ("LSy_BFP", 17),
   ("LSx_IMG", 18), ("LSy_IMG", 19),
   ("shear", 20)]

/-- Dictionary access n2c[name]; none models a KeyError. -/
def n2c (name : String) : Option ℕ :=
  names_to_voltage_channels.lookup name

/-- Source lines 228-229: illumination_sources. -/
def illumination_sources : List String :=
  ["LED", "405", "488", "561", "640", "405_on_during_rolling"]

/-- np.linspace(start, stop, num) evaluated at index i (endpoint
included; a single sample equals start). -/
def linspace (start stop : ℚ) (num i : ℕ) : ℚ :=
  if num ≤ 1 then start
  else start + (stop - start) * (i : ℚ) / ((num : ℚ) - 1)

/-- Source line 321: galvo_volts_per_um = 0.011395. -/
def galvo_volts_per_um : ℚ := 11395 / 1000000

/-- Source line 326: galvo_volts_per_px = 0.0021097. -/
def galvo_volts_per_px : ℚ := 21097 / 10000000

structure VoltageConfig where
  num_channels : ℕ
  exposure_px : ℕ
  rolling_px : ℕ
  jitter_raw_px : ℕ
  camera_preframes : ℕ
  volumes_per_buffer : ℕ
  projection_mode : Bool
  slices_per_volume : ℕ
  channels_per_slice : List String
  power_per_channel : List ℚ
  scan_range_um : ℚ
  galvo_shear_px : ℤ
  ls_focus_adjust_v : ℚ
  ls_angular_dither_v : ℚ

/-- Source line 318: jitter_px = max(self.ao.s2p(30e-6), 1). -/
def Microscope_jitter_px (cfg : VoltageConfig) : ℕ :=
  max cfg.jitter_raw_px 1

/-- Source line 319: period_px = max(exposure_px, rolling_px) + jitter_px. -/
def Microscope_period_px (cfg : VoltageConfig) : ℕ :=
  max cfg.exposure_px cfg.rolling_px + Microscope_jitter_px cfg

/-- Source lines 337-338: slices = self.slices_per_volume;
if self.projection_mode: slices = 1. -/
def Microscope_voltages_slices (cfg : VoltageConfig) : ℕ :=
  if cfg.projection_mode then 1 else cfg.slices_per_volume

/-- The voltage-channel indices needed for one (channel, power) block;
the ttl field is none for the LED channel (whose TTL line is never
written, source line 346). -/
structure ChanIdxs where
  cameraIdx : ℕ
  ttlIdx : Option ℕ
  powerIdx : ℕ
  bfpIdx : ℕ
  galvoIdx : ℕ
  shearIdx : ℕ
  lsxImgIdx : ℕ

/-- The names_to_voltage_channels lookups performed for one channel
block (source lines 333-367); a failed lookup is a KeyError. -/
def Microscope_channel_indices (channel : String) : Option ChanIdxs := do
  let cameraIdx ← n2c "camera"
  let ttlIdx ←
    if channel = "LED" then pure Option.none
    else (n2c (channel ++ "_TTL")).map some
  let powerIdx ← n2c (channel ++ "_power")
  let bfpIdx ← n2c "LSx_BFP"
  let galvoIdx ← n2c "galvo"
  let shearIdx ← n2c "shear"
  let lsxImgIdx ← n2c "LSx_IMG"
  pure ⟨cameraIdx, ttlIdx, powerIdx, bfpIdx, galvoIdx, shearIdx, lsxImgIdx⟩

/-- The rows of one (volume, slice, channel) block, given the resolved
channel indices (source lines 342-368).  The written channel columns are
pairwise distinct in names_to_voltage_channels, so the sequence of numpy
slice assignments is expressed as a single per-entry case split. -/
def Microscope_block_rows (cfg : VoltageConfig) (idx : ChanIdxs)
    (_slice : ℕ) (channel : String) (power : ℚ) : List (List ℚ) :=
  let jitter_px := Microscope_jitter_px cfg
  let period_px := Microscope_period_px cfg
  let rolling_px := cfg.rolling_px
  let light_on_px := if channel = "405_on_during_rolling" then 0 else rolling_px
  let ramp_px := period_px - jitter_px - light_on_px
  let galvo_scan_volts := galvo_volts_per_um * cfg.scan_range_um
  let galvo_shear_volts := galvo_volts_per_px * (cfg.galvo_shear_px : ℚ)
  let inWindow : ℕ → Prop := fun t => light_on_px ≤ t ∧ t < period_px - jitter_px
  (List.range period_px).map fun t =>
    (List.range cfg.num_channels).map fun c =>
      if c = idx.cameraIdx ∧ t < rolling_px then 5
      else if idx.ttlIdx = some c ∧ inWindow t then 10
      else if c = idx.powerIdx ∧ inWindow t then 9/2 * power / 100
      else if c = idx.bfpIdx then cfg.ls_focus_adjust_v
      else if cfg.projection_mode then
        let gs_v := galvo_scan_volts / 2
        let sh_v := galvo_shear_volts / 2
        if c = idx.galvoIdx ∧ inWindow t then
          linspace (-gs_v) gs_v ramp_px (t - light_on_px)
        else if c = idx.shearIdx ∧ inWindow t then
          linspace (-sh_v) sh_v ramp_px (t - light_on_px)
        else 0
      else
        if c = idx.galvoIdx then
          linspace (-(galvo_scan_volts/2)) (galvo_scan_volts/2)
            cfg.slices_per_volume _slice
        else if c = idx.lsxImgIdx ∧ inWindow t then
          linspace (-cfg.ls_angular_dither_v) cfg.ls_angular_dither_v
            ramp_px (t - light_on_px)
        else 0

/-- One (volume, slice, channel) block (source lines 339-368). -/
def Microscope_channel_block (cfg : VoltageConfig) (_slice : ℕ)
    (channel : String) (power : ℚ) : Option (List (List ℚ)) :=
  match Microscope_channel_indices channel with
  | none => none
  | some idx => some (Microscope_block_rows cfg idx _slice channel power)

/-- One camera preframe block (source lines 331-334). -/
def Microscope_preframe_block (cfg : VoltageConfig) : Option (List (List ℚ)) :=
  match n2c "camera" with
  | none => none
  | some cameraIdx =>
    some ((List.range (Microscope_period_px cfg)).map fun t =>
      (List.range cfg.num_channels).map fun c =>
        if c = cameraIdx ∧ t < cfg.rolling_px then 5 else 0)

/-- Source lines 313-373: Microscope._calculate_voltages.  Returns the
concatenated voltage matrix as a list of rows, or none when a
names_to_voltage_channels lookup raises KeyError. -/
def Microscope_calculate_voltages (cfg : VoltageConfig) :
    Option (List (List ℚ)) := do
  let pre ← (List.range cfg.camera_preframes).mapM
      (fun _ => Microscope_preframe_block cfg)
  let main ← (List.range cfg.volumes_per_buffer).mapM (fun _ =>
      (List.range (Microscope_voltages_slices cfg)).mapM (fun sl =>
        (cfg.channels_per_slice.zip cfg.power_per_channel).mapM (fun cp =>
          Microscope_channel_block cfg sl cp.1 cp.2)))
  pure ((pre ++ main.join.join).join)

/-- Helper: a successful Option-valued mapM preserves list length. -/
theorem mapM_option_length {α β : Type} (f : α → Option β) :
    ∀ (xs : List α) (ys : List β), xs.mapM f = some ys → ys.length = xs.length := by
  intro xs
  induction xs with
  | nil =>
    intro ys h
    simp only [List.mapM_nil, pure, Option.some.injEq] at h
    simp [← h]
  | cons a as ih =>
    intro ys h
    rw [List.mapM_cons] at h
    cases hfa : f a with
    | none => rw [hfa] at h; simp at h
    | some b =>
      rw [hfa] at h
      cases hrest : as.mapM f with
      | none => rw [hrest] at h; simp at h
      | some bs =>
        rw [hrest] at h
        simp only [Option.bind_eq_bind, Option.some_bind, pure,
          Option.some.injEq] at h
        subst h
        simp [ih bs hrest]

/-- Helper: every element of a successful Option-valued mapM is the
image of some input element. -/
theorem mapM_option_mem {α β : Type} (f : α → Option β) :
    ∀ (xs : List α) (ys : List β), xs.mapM f = some ys →
      ∀ y ∈ ys, ∃ x ∈ xs, f x = some y := by
  intro xs
  induction xs with
  | nil =>
    intro ys h
    simp only [List.mapM_nil, pure, Option.some.injEq] at h
    simp [← h]
  | cons a as ih =>
    intro ys h
    rw [List.mapM_cons] at h
    cases hfa : f a with
    | none => rw [hfa] at h; simp at h
    | some b =>
      rw [hfa] at h
      cases hrest : as.mapM f with
      | none => rw [hrest] at h; simp at h
      | some bs =>
        rw [hrest] at h
        simp only [Option.bind_eq_bind, Option.some_bind, pure,
          Option.some.injEq] at h
        subst h
        intro y hy
        rcases List.mem_cons.mp hy with hyb | hybs
        · exact ⟨a, List.mem_cons_self a as, by rw [hfa, hyb]⟩
        · rcases ih bs hrest y hybs with ⟨x, hx, hfx⟩
          exact ⟨x, List.mem_cons_of_mem a hx, hfx⟩

/-- Helper: the concatenation of blocks of constant length n has
blocks * n rows. -/
theorem join_length_const {α : Type} (n : ℕ) :
    ∀ (L : List (List α)), (∀ b ∈ L, b.length = n) →
      L.join.length = L.length * n := by
  intro L
  induction L with
  | nil => intro _; simp
  | cons b bs ih =>
    intro hall
    have hb : b.length = n := hall b (List.mem_cons_self b bs)
    have hbs : ∀ x ∈ bs, x.length = n :=
      fun x hx => hall x (List.mem_cons_of_mem b hx)
    simp [List.join, hb, ih hbs, Nat.succ_mul, Nat.add_comm]

/-- Helper: any successfully built channel block has period_px rows. -/
theorem channel_block_length (cfg : VoltageConfig) (sl : ℕ)
    (channel : String) (power : ℚ) (bl : List (List ℚ))
    (h : Microscope_channel_block cfg sl channel power = some bl) :
    bl.length = Microscope_period_px cfg := by
  unfold Microscope_channel_block at h
  cases hidx : Microscope_channel_indices channel with
  | none => rw [hidx] at h; exact absurd h (by simp)
  | some idx =>
    rw [hidx] at h
    simp only [Option.some.injEq] at h
    subst h
    simp [Microscope_block_rows]

/-- Helper: any successfully built preframe block has period_px rows. -/
theorem preframe_block_length (cfg : VoltageConfig) (bl : List (List ℚ))
    (h : Microscope_preframe_block cfg = some bl) :
    bl.length = Microscope_period_px cfg := by
  unfold Microscope_preframe_block at h
  cases hidx : n2c "camera" with
  | none => rw [hidx] at h; exact absurd h (by simp)
  | some cameraIdx =>
    rw [hidx] at h
    simp only [Option.some.injEq] at h
    subst h
    simp

/-- C4: whenever _calculate_voltages succeeds, the synthesized voltage
matrix has exactly (camera_preframes + volumes_per_buffer * slices *
num_channels) * period_px rows, where slices is slices_per_volume (1 in
projection mode), period_px = max(exposure_px, rolling_px) + jitter_px,
and jitter_px ≥ 1 even when ao.s2p(30e-6) is below one sample. -/
theorem C4_voltage_matrix_rows (cfg : VoltageConfig) (m : List (List ℚ))
    (hlen : cfg.power_per_channel.length = cfg.channels_per_slice.length)
    (h : Microscope_calculate_voltages cfg = some m) :
    m.length = (cfg.camera_preframes +
        cfg.volumes_per_buffer * Microscope_voltages_slices cfg *
          cfg.channels_per_slice.length) * Microscope_period_px cfg ∧
    1 ≤ Microscope_jitter_px cfg := by
  refine ⟨?_, le_max_right _ _⟩
  unfold Microscope_calculate_voltages at h
  cases hpre : (List.range cfg.camera_preframes).mapM
      (fun _ => Microscope_preframe_block cfg) with
  | none => rw [hpre] at h; exact absurd h (by simp)
  | some pre =>
    rw [hpre] at h
    cases hmain : (List.range cfg.volumes_per_buffer).mapM (fun _ =>
        (List.range (Microscope_voltages_slices cfg)).mapM (fun sl =>
          (cfg.channels_per_slice.zip cfg.power_per_channel).mapM (fun cp =>
            Microscope_channel_block cfg sl cp.1 cp.2))) with
    | none => rw [hmain] at h; exact absurd h (by simp)
    | some main =>
      rw [hmain] at h
      simp only [Option.bind_eq_bind, Option.some_bind, pure,
        Option.some.injEq] at h
      subst h
      have hprelen : pre.length = cfg.camera_preframes := by
        simpa using mapM_option_length _ _ _ hpre
      have hmainlen : main.length = cfg.volumes_per_buffer := by
        simpa using mapM_option_length _ _ _ hmain
      -- every volume entry has slices elements
      have hvol : ∀ vl ∈ main, vl.length = Microscope_voltages_slices cfg := by
        intro vl hvl
        rcases mapM_option_mem _ _ _ hmain vl hvl with ⟨_, _, hx⟩
        simpa using mapM_option_length _ _ _ hx
      -- every slice entry has (zip length) channel blocks
      have hsl : ∀ sll ∈ main.join, sll.length =
          (cfg.channels_per_slice.zip cfg.power_per_channel).length := by
        intro sll hsll
        rcases List.mem_join.mp hsll with ⟨vl, hvl, hmem⟩
        rcases mapM_option_mem _ _ _ hmain vl hvl with ⟨_, _, hx⟩
        rcases mapM_option_mem _ _ _ hx sll hmem with ⟨sl, _, hsx⟩
        simpa using mapM_option_length _ _ _ hsx
      -- every block has period_px rows
      have hblocks : ∀ b ∈ pre ++ main.join.join,
          b.length = Microscope_period_px cfg := by
        intro b hb
        rcases List.mem_append.mp hb with hbp | hbm
        · rcases mapM_option_mem _ _ _ hpre b hbp with ⟨_, _, hx⟩
          exact preframe_block_length cfg b hx
        · rcases List.mem_join.mp hbm with ⟨sll, hsll, hmem⟩
          rcases List.mem_join.mp hsll with ⟨vl, hvl, hmem2⟩
          rcases mapM_option_mem _ _ _ hmain vl hvl with ⟨_, _, hx⟩
          rcases mapM_option_mem _ _ _ hx sll hmem2 with ⟨sl, _, hsx⟩
          rcases mapM_option_mem _ _ _ hsx b hmem with ⟨cp, _, hcx⟩
          exact channel_block_length cfg sl cp.1 cp.2 b hcx
      rw [join_length_const _ _ hblocks]
      congr 1
      rw [List.length_append, hprelen]
      congr 1
      have hjj : main.join.join.length =
          main.join.length *
            (cfg.channels_per_slice.zip cfg.power_per_channel).length :=
        join_length_const _ _ hsl
      have hj : main.join.length =
          main.length * Microscope_voltages_slices cfg :=
        join_length_const _ _ hvol
      rw [hjj, hj, hmainlen, List.length_zip, hlen, Nat.min_self]

/-- Concrete configuration for the C4 witness: one preframe, one volume,
two slices, one channel (488 laser), period_px = 3. -/
def voltageConfigExample : VoltageConfig :=
  { num_channels := 21, exposure_px := 2, rolling_px := 1, jitter_raw_px := 0
    camera_preframes := 1, volumes_per_buffer := 1, projection_mode := false
    slices_per_volume := 2, channels_per_slice := ["488"]
    power_per_channel := [100], scan_range_um := 10, galvo_shear_px := 0
    ls_focus_adjust_v := 0, ls_angular_dither_v := 0 }

theorem C4_voltage_matrix_rows_witness :
    (Microscope_calculate_voltages voltageConfigExample).map List.length =
      some ((1 + 1 * 2 * 1) * 3) := by
  cases hEq : Microscope_calculate_voltages voltageConfigExample with
  | none => exact absurd hEq (by decide)
  | some m =>
    have h := C4_voltage_matrix_rows voltageConfigExample m (by decide) hEq
    simpa [Microscope_period_px, Microscope_jitter_px,
      Microscope_voltages_slices, voltageConfigExample] using h.1

/-- Failing configuration for C9: the channel named
405_on_during_rolling is accepted by the settings validation (it is in
illumination_sources) but has no TTL/power entries in
names_to_voltage_channels. -/
def voltageConfig405 : VoltageConfig :=
  { voltageConfigExample with
    channels_per_slice := ["405_on_during_rolling"]
    power_per_channel := [50] }

/-- C9: the code cannot drive the 405_on_during_rolling channel at all:
its block synthesis looks up the keys 405_on_during_rolling_TTL and
405_on_during_rolling_power, which are absent from
names_to_voltage_channels, so _calculate_voltages raises KeyError
(modelled as none) instead of emitting a block whose TTL/power lines
start at sample 0. -/
theorem C9_405_on_during_rolling_keyerror :
    n2c ("405_on_during_rolling" ++ "_TTL") = none ∧
    n2c ("405_on_during_rolling" ++ "_power") = none ∧
    "405_on_during_rolling" ∈ illumination_sources ∧
    Microscope_calculate_voltages voltageConfig405 = none := by
  refine ⟨by decide, by decide, by decide, ?_⟩
  decide

/-! ## Resource custody (source lines 535-536, 605, 722, 734-835)

The custody-thread primitive lives in the external concurrency_tools
library; its hand-off semantics is modelled from the spec.  The custody
call sequences of settings_task and acquire_task are taken from the
source. -/

/-- The resources passed to custody.switch_from by settings_task and
acquire_task. -/
inductive HTResource
  | camera
  | datapreview
  | displayUnit
  deriving DecidableEq

/-- One custody.switch_from(a, to=b) call. -/
abbrev SwitchCall := Option HTResource × Option HTResource

/-- settings_task custody calls (source lines 536, 605, 722); the
memory-rejection path and the success path make the same two calls. -/
def settings_task_custody : List SwitchCall :=
  [(none, some HTResource.camera), (some HTResource.camera, none)]

/-- acquire_task custody calls with display=True
(source lines 735, 803, 813, 815). -/
def acquire_task_custody_display : List SwitchCall :=
  [(none, some HTResource.camera),
   (some HTResource.camera, some HTResource.datapreview),
   (some HTResource.datapreview, some HTResource.displayUnit),
   (some HTResource.displayUnit, none)]

/-- acquire_task custody calls with display=False
(source lines 735, 803, 817). -/
def acquire_task_custody_no_display : List SwitchCall :=
  [(none, some HTResource.camera),
   (some HTResource.camera, some HTResource.datapreview),
   (some HTResource.datapreview, none)]

/-- acquire_task custody calls when settings were not applied
(source lines 735, 741). -/
def acquire_task_custody_not_applied : List SwitchCall :=
  [(none, some HTResource.camera), (some HTResource.camera, none)]

/-- The custody call sequences occurring in the source. -/
def source_custody_traces : List (List SwitchCall) :=
  [settings_task_custody, acquire_task_custody_display,
   acquire_task_custody_no_display, acquire_task_custody_not_applied]

/-- A call sequence is a hand-off chain: each switch_from names exactly
the resource currently held (starting from holding nothing). -/
def chainedFrom : Option HTResource → List SwitchCall → Bool
  | _, [] => true
  | h, (f, tgt) :: rest => decide (f = h) && chainedFrom tgt rest

/-- Modelled from the spec: scheduler state for the custody arbiter of
the external concurrency_tools library.  Each task has the remaining
switch_from calls of its trace and the list of resources it currently
holds (a list, not an Option, so that holding several resources is
representable and at-most-one custody is a proved property). -/
structure CustodyState (T : Type) where
  rem : T → List SwitchCall
  held : T → List HTResource

/-- Releasing the from-resource of a switch_from call. -/
def releaseFrom (l : List HTResource) : Option HTResource → List HTResource
  | none => l
  | some r => l.filter (fun x => !(decide (x = r)))

/-- Modelled from the spec: one switch_from step of the custody arbiter.
The task first releases the from-resource, then blocks until the
to-resource is free (held by no task), then is granted it. -/
inductive CustodyStep {T : Type} [DecidableEq T] :
    CustodyState T → CustodyState T → Prop
  | switch (s : CustodyState T) (t : T) (f tgt : Option HTResource)
      (rest : List SwitchCall)
      (hrem : s.rem t = (f, tgt) :: rest)
      (hfree : ∀ r, tgt = some r →
        (∀ u, u ≠ t → r ∉ s.held u) ∧ r ∉ releaseFrom (s.held t) f) :
      CustodyStep s
        { rem := Function.update s.rem t rest
          held := Function.update s.held t
            (releaseFrom (s.held t) f ++ tgt.toList) }

/-- Initial scheduler state: every task has its full trace and holds
nothing. -/
def custodyInit {T : Type} (prog : T → List SwitchCall) : CustodyState T :=
  { rem := prog, held := fun _ => [] }

/-- Scheduler invariant: every task holds exactly the resource its
chain hands it (so at most one), and no two tasks hold the same
resource. -/
def CustodyInv {T : Type} (s : CustodyState T) : Prop :=
  (∀ t, ∃ h : Option HTResource,
    s.held t = h.toList ∧ chainedFrom h (s.rem t) = true) ∧
  (∀ t u r, r ∈ s.held t → r ∈ s.held u → t = u)

theorem releaseFrom_self : ∀ (h : Option HTResource),
    releaseFrom h.toList h = [] := by
  intro h
  cases h with
  | none => rfl
  | some r => simp [releaseFrom]

theorem custodyInv_init {T : Type} (prog : T → List SwitchCall)
    (hprog : ∀ t, chainedFrom none (prog t) = true) :
    CustodyInv (custodyInit prog) := by
  constructor
  · intro t
    exact ⟨none, rfl, hprog t⟩
  · intro t u r hrt
    simp [custodyInit] at hrt

theorem custodyInv_step {T : Type} [DecidableEq T]
    {s s' : CustodyState T} (hstep : CustodyStep s s')
    (hinv : CustodyInv s) : CustodyInv s' := by
  cases hstep with
  | switch t f tgt rest hrem hfree =>
    rcases hinv with ⟨hchain, hme⟩
    rcases hchain t with ⟨ht, hheld, hchained⟩
    rw [hrem] at hchained
    simp only [chainedFrom, Bool.and_eq_true, decide_eq_true_eq] at hchained
    rcases hchained with ⟨hf, hrest⟩
    have hrel : releaseFrom (s.held t) f = [] := by
      rw [hheld, hf]
      exact releaseFrom_self ht
    constructor
    · intro u
      by_cases hu : u = t
      · subst hu
        refine ⟨tgt, ?_, ?_⟩
        · simp [Function.update_same, hrel]
        · simp [Function.update_same, hrest]
      · rcases hchain u with ⟨hu2, hheld2, hchained2⟩
        exact ⟨hu2, by simp [Function.update_noteq hu, hheld2],
          by simp [Function.update_noteq hu, hchained2]⟩
    · intro a b r hra hrb
      simp only [Function.update_apply] at hra hrb
      by_cases hat : a = t <;> by_cases hbt : b = t
      · rw [hat, hbt]
      · rw [if_pos hat, hrel, List.nil_append] at hra
        rw [if_neg hbt] at hrb
        have hto : tgt = some r := by
          cases tgt with
          | none => simp at hra
          | some x => simp at hra; rw [hra]
        exact absurd hrb ((hfree r hto).1 b hbt)
      · rw [if_pos hbt, hrel, List.nil_append] at hrb
        rw [if_neg hat] at hra
        have hto : tgt = some r := by
          cases tgt with
          | none => simp at hrb
          | some x => simp at hrb; rw [hrb]
        exact absurd hra ((hfree r hto).1 a hat)
      · rw [if_neg hat] at hra
        rw [if_neg hbt] at hrb
        exact hme a b r hra hrb

/-- C6: for every set of tasks running the custody call sequences of
settings_task and acquire_task, in every reachable scheduler state each
resource token is held by at most one task and each task holds at most
one resource. -/
theorem C6_custody_exclusive {T : Type} [DecidableEq T]
    (prog : T → List SwitchCall)
    (hprog : ∀ t, prog t ∈ source_custody_traces)
    (s : CustodyState T)
    (hreach : Relation.ReflTransGen CustodyStep (custodyInit prog) s) :
    (∀ t, (s.held t).length ≤ 1) ∧
    (∀ t u r, r ∈ s.held t → r ∈ s.held u → t = u) := by
  have hchained : ∀ t, chainedFrom none (prog t) = true := by
    intro t
    have h := hprog t
    simp only [source_custody_traces, List.mem_cons, List.not_mem_nil,
      or_false] at h
    rcases h with h | h | h | h <;> rw [h] <;> decide
  have hinv : CustodyInv s := by
    induction hreach with
    | refl => exact custodyInv_init prog hchained
    | tail _ hstep ih => exact custodyInv_step hstep ih
  refine ⟨?_, hinv.2⟩
  intro t
  rcases hinv.1 t with ⟨h, hheld, _⟩
  rw [hheld]
  cases h <;> simp

theorem C6_custody_exclusive_witness :
    (∀ t : Fin 2, ((custodyInit fun _ : Fin 2 =>
        settings_task_custody).held t).length ≤ 1) ∧
    (∀ t u : Fin 2, ∀ r,
      r ∈ (custodyInit fun _ : Fin 2 => settings_task_custody).held t →
      r ∈ (custodyInit fun _ : Fin 2 => settings_task_custody).held u →
      t = u) :=
  C6_custody_exclusive (fun _ : Fin 2 => settings_task_custody)
    (fun _ => by simp [source_custody_traces])
    _ Relation.ReflTransGen.refl

/-! ## DataRoi (source lines 1118-1190)

The 1-D Gaussian smoothing (scipy gaussian_filter1d, an external
numerical library) is abstracted as a function parameter `smooth`; the
theorems only constrain it on all-zero profiles, where the Gaussian
filter is the identity.  Python negative indexing line[-i] (note that
-0 is 0, so the backward scans start at element 0) and Python slice
clamping are modelled explicitly. -/

/-- Python negative index line[-i] for a list of length len. -/
def pyNegIdx (len i : ℕ) : ℕ :=
  if i = 0 then 0 else len - i

/-- np.amax over indices 0..n-1 (0 for an empty range). -/
def maxOver (n : ℕ) (f : ℕ → ℕ) : ℕ :=
  (List.range n).foldr (fun i m => max (f i) m) 0

/-- Python min() over a list (0 for an empty list). -/
def listMin : List ℚ → ℚ
  | [] => 0
  | x :: xs => xs.foldl min x

/-- Normalization of one Python slice bound for an axis of size n:
negative bounds count from the end, and bounds are clamped to [0, n]. -/
def pyBound (n : ℕ) (a : ℤ) : ℕ :=
  if a < 0 then (n + a).toNat else min a.toNat n

/-- Per-axis crop bounds estimated for one (volume, channel) pair:
min_index_zyx = (z0, y0, x0) and max_index_zyx = (z1, y1, x1),
as Python ints. -/
structure RoiBounds where
  z0 : ℤ
  y0 : ℤ
  x0 : ℤ
  z1 : ℤ
  y1 : ℤ
  x1 : ℤ
  deriving DecidableEq

/-- Source lines 1138-1183: the threshold scan for one volume v and
channel c.  inner = h_px - t_px - b_px is the number of retained pixel
rows; the three smoothed profiles are thresholded at
int(min(profile) * signal_to_bg_ratio) and scanned from both ends
(the backward scans use Python indexing line[-i], whose first probe
-0 reads element 0). -/
def DataRoi_channel_bounds (smooth : List ℚ → List ℚ)
    (signal_to_bg_ratio : ℚ) (t_px b_px : ℕ) (d : Stack5) (v c : ℕ) :
    RoiBounds :=
  let inner := d.h - t_px - b_px
  let width_projection : ℕ → ℕ → ℕ := fun z y =>
    maxOver d.w (fun x => d.val v z c (t_px + y) x)
  let scan_projection : ℕ → ℕ → ℕ := fun y x =>
    maxOver d.slices (fun z => d.val v z c (t_px + y) x)
  let scan_line := smooth ((List.range d.slices).map (fun z =>
    ((maxOver inner (fun y => width_projection z y) : ℕ) : ℚ)))
  let prop_line := smooth ((List.range inner).map (fun y =>
    ((maxOver d.w (fun x => scan_projection y x) : ℕ) : ℚ)))
  let width_line := smooth ((List.range d.w).map (fun x =>
    ((maxOver inner (fun y => scan_projection y x) : ℕ) : ℚ)))
  let scan_threshold := pyInt (listMin scan_line * signal_to_bg_ratio)
  let prop_threshold := pyInt (listMin prop_line * signal_to_bg_ratio)
  let width_threshold := pyInt (listMin width_line * signal_to_bg_ratio)
  let z0 : ℤ := match (List.range d.slices).find? (fun i =>
      decide ((scan_threshold : ℚ) < scan_line.getD i 0)) with
    | some i => (i : ℤ)
    | none => 0
  let y0 : ℤ := match (List.range inner).find? (fun i =>
      decide ((prop_threshold : ℚ) < prop_line.getD i 0)) with
    | some i => (i : ℤ) + t_px
    | none => 0
  let x0 : ℤ := match (List.range d.w).find? (fun i =>
      decide ((width_threshold : ℚ) < width_line.getD i 0)) with
    | some i => (i : ℤ)
    | none => 0
  let z1 : ℤ := match (List.range d.slices).find? (fun i =>
      decide ((scan_threshold : ℚ) < scan_line.getD (pyNegIdx d.slices i) 0)) with
    | some i => (d.slices : ℤ) - 1 - i
    | none => (d.slices : ℤ) - 1
  let y1 : ℤ := match (List.range inner).find? (fun i =>
      decide ((prop_threshold : ℚ) < prop_line.getD (pyNegIdx inner i) 0)) with
    | some i => (d.h : ℤ) - 1 - i - b_px
    | none => (d.h : ℤ) - 1
  let x1 : ℤ := match (List.range d.w).find? (fun i =>
      decide ((width_threshold : ℚ) < width_line.getD (pyNegIdx d.w i) 0)) with
    | some i => (d.w : ℤ) - 1 - i
    | none => (d.w : ℤ) - 1
  ⟨z0, y0, x0, z1, y1, x1⟩

/-- Componentwise min of index triples (np.amin(..., axis=0)). -/
def tripleMin (a b : ℤ × ℤ × ℤ) : ℤ × ℤ × ℤ :=
  (min a.1 b.1, min a.2.1 b.2.1, min a.2.2 b.2.2)

/-- Componentwise max of index triples (np.amax(..., axis=0)). -/
def tripleMax (a b : ℤ × ℤ × ℤ) : ℤ × ℤ × ℤ :=
  (max a.1 b.1, max a.2.1 b.2.1, max a.2.2 b.2.2)

/-- Componentwise reduction of a nonempty list of index triples. -/
def foldTriples (f : ℤ × ℤ × ℤ → ℤ × ℤ × ℤ → ℤ × ℤ × ℤ) :
    List (ℤ × ℤ × ℤ) → ℤ × ℤ × ℤ
  | [] => (0, 0, 0)
  | x :: xs => xs.foldl f x

/-- Source lines 1124-1190: DataRoi.get.  The per-channel bounds are
aggregated with componentwise min/max across channels and volumes, and
the stack is cropped with Python slice semantics
data[:, z0:z1, :, y0:y1, x0:x1]. -/
def DataRoi_get (smooth : List ℚ → List ℚ) (signal_to_bg_ratio : ℚ)
    (preview_crop_px : ℕ) (timestamp_mode : String) (d : Stack5) : Stack5 :=
  let t_px := if timestamp_mode = "binary+ASCII" then 8 else preview_crop_px
  let b_px := preview_crop_px
  let minmax_vo := (List.range d.vo).map (fun v =>
    let per_ch := (List.range d.ch).map (fun c =>
      DataRoi_channel_bounds smooth signal_to_bg_ratio t_px b_px d v c)
    (foldTriples tripleMin (per_ch.map (fun b => (b.z0, b.y0, b.x0))),
     foldTriples tripleMax (per_ch.map (fun b => (b.z1, b.y1, b.x1)))))
  let min_i := foldTriples tripleMin (minmax_vo.map Prod.fst)
  let max_i := foldTriples tripleMax (minmax_vo.map Prod.snd)
  let zStart := pyBound d.slices min_i.1
  let zStop := pyBound d.slices max_i.1
  let yStart := pyBound d.h min_i.2.1
  let yStop := pyBound d.h max_i.2.1
  let xStart := pyBound d.w min_i.2.2
  let xStop := pyBound d.w max_i.2.2
  { vo := d.vo
    slices := zStop - zStart
    ch := d.ch
    h := yStop - yStart
    w := xStop - xStart
    val := fun v z c y x =>
      if v < d.vo ∧ z < zStop - zStart ∧ c < d.ch ∧ y < yStop - yStart ∧
          x < xStop - xStart then
        d.val v (zStart + z) c (yStart + y) (xStart + x)
      else 0 }

theorem pyInt_zero : pyInt 0 = 0 := by
  unfold pyInt
  rw [if_pos le_rfl, ratFloor_eq]
  exact Int.floor_zero

/-- Helper: the max over an all-zero range is 0. -/
theorem maxOver_zero (n : ℕ) : maxOver n (fun _ => 0) = 0 := by
  unfold maxOver
  induction (List.range n) with
  | nil => rfl
  | cons a l ih => simp [List.foldr_cons, ih]

/-- Helper: getD of an all-zero list with default 0 is 0. -/
theorem getD_replicate_zero : ∀ (n i : ℕ),
    (List.replicate n (0 : ℚ)).getD i 0 = 0 := by
  intro n
  induction n with
  | zero => intro i; simp [List.getD]
  | succ k ih =>
    intro i
    cases i with
    | zero => simp [List.replicate, List.getD]
    | succ j => simpa [List.replicate, List.getD] using ih j

/-- Helper: Python min() of an all-zero list is 0. -/
theorem listMin_replicate_zero : ∀ n, listMin (List.replicate n (0 : ℚ)) = 0 := by
  have haux : ∀ k, (List.replicate k (0 : ℚ)).foldl min 0 = 0 := by
    intro k
    induction k with
    | zero => rfl
    | succ j ih => simpa [List.replicate] using ih
  intro n
  cases n with
  | zero => rfl
  | succ k => simpa [List.replicate, listMin] using haux k

/-- Helper: mapping a pointwise-zero function over a range yields an
all-zero list. -/
theorem map_range_zero {f : ℕ → ℚ} (hf : ∀ i, f i = 0) (n : ℕ) :
    (List.range n).map f = List.replicate n 0 := by
  have : ∀ l : List ℕ, l.map f = List.replicate l.length 0 := by
    intro l
    induction l with
    | nil => rfl
    | cons a t ih => simp [List.map_cons, hf a, ih, List.replicate]
  simpa using this (List.range n)

/-- Helper: find? over a range whose probe reads an all-zero smoothed
line with a 0 threshold never fires. -/
theorem find_range_zero_none (n : ℕ) (g : ℕ → ℕ)
    (line : List ℚ) (hline : ∀ i, line.getD i 0 = 0) :
    (List.range n).find? (fun i => decide ((0 : ℚ) < line.getD (g i) 0)) =
      none := by
  apply List.find?_eq_none.mpr
  intro i _
  simp only [decide_eq_true_eq]
  rw [hline (g i)]
  exact lt_irrefl 0

/-- Helper: on an all-zero stack the per-channel bound scan falls back
to min = (0,0,0) and max = (slices-1, h-1, w-1) (with t_px = b_px = 0). -/
theorem DataRoi_channel_bounds_zero (smooth : List ℚ → List ℚ)
    (ratio : ℚ) (d : Stack5)
    (hzero : ∀ v z c y x, d.val v z c y x = 0)
    (hsm : ∀ n, smooth (List.replicate n 0) = List.replicate n 0)
    (v c : ℕ) :
    DataRoi_channel_bounds smooth ratio 0 0 d v c =
      ⟨0, 0, 0, (d.slices : ℤ) - 1, (d.h : ℤ) - 1, (d.w : ℤ) - 1⟩ := by
  unfold DataRoi_channel_bounds
  have hwidth : ∀ z y, maxOver d.w (fun x => d.val v z c (0 + y) x) = 0 := by
    intro z y
    have : (fun x => d.val v z c (0 + y) x) = fun _ => 0 :=
      funext fun x => hzero v z c (0 + y) x
    rw [this, maxOver_zero]
  have hscanp : ∀ y x, maxOver d.slices (fun z => d.val v z c (0 + y) x) = 0 := by
    intro y x
    have : (fun z => d.val v z c (0 + y) x) = fun _ => 0 :=
      funext fun z => hzero v z c (0 + y) x
    rw [this, maxOver_zero]
  have hscanline : ((List.range d.slices).map (fun z =>
      ((maxOver (d.h - 0 - 0) (fun y => maxOver d.w
        (fun x => d.val v z c (0 + y) x)) : ℕ) : ℚ))) =
      List.replicate d.slices 0 := by
    apply map_range_zero
    intro z
    have : (fun y => maxOver d.w (fun x => d.val v z c (0 + y) x)) =
        fun _ => 0 := funext fun y => hwidth z y
    rw [this, maxOver_zero]
    norm_num
  have hpropline : ((List.range (d.h - 0 - 0)).map (fun y =>
      ((maxOver d.w (fun x => maxOver d.slices
        (fun z => d.val v z c (0 + y) x)) : ℕ) : ℚ))) =
      List.replicate (d.h - 0 - 0) 0 := by
    apply map_range_zero
    intro y
    have : (fun x => maxOver d.slices (fun z => d.val v z c (0 + y) x)) =
        fun _ => 0 := funext fun x => hscanp y x
    rw [this, maxOver_zero]
    norm_num
  have hwidthline : ((List.range d.w).map (fun x =>
      ((maxOver (d.h - 0 - 0) (fun y => maxOver d.slices
        (fun z => d.val v z c (0 + y) x)) : ℕ) : ℚ))) =
      List.replicate d.w 0 := by
    apply map_range_zero
    intro x
    have : (fun y => maxOver d.slices (fun z => d.val v z c (0 + y) x)) =
        fun _ => 0 := funext fun y => hscanp y x
    rw [this, maxOver_zero]
    norm_num
  simp only [hscanline, hpropline, hwidthline, hsm, listMin_replicate_zero,
    zero_mul, pyInt_zero, Int.cast_zero]
  rw [find_range_zero_none _ (fun i => i) _ (getD_replicate_zero _),
      find_range_zero_none _ (fun i => i) _ (getD_replicate_zero _),
      find_range_zero_none _ (fun i => i) _ (getD_replicate_zero _),
      find_range_zero_none _ (fun i => pyNegIdx d.slices i) _
        (getD_replicate_zero _),
      find_range_zero_none _ (fun i => pyNegIdx (d.h - 0 - 0) i) _
        (getD_replicate_zero _),
      find_range_zero_none _ (fun i => pyNegIdx d.w i) _
        (getD_replicate_zero _)]

/-- Helper: mapping a pointwise-constant function is a replicate. -/
theorem map_eq_replicate {α β : Type} (f : α → β) (b : β) :
    ∀ l : List α, (∀ i ∈ l, f i = b) →
      l.map f = List.replicate l.length b := by
  intro l
  induction l with
  | nil => intro _; rfl
  | cons a t ih =>
    intro hall
    simp [List.map_cons, hall a (List.mem_cons_self a t), List.replicate,
      ih (fun i hi => hall i (List.mem_cons_of_mem a hi))]

/-- Helper: folding an idempotent operation over a constant list. -/
theorem foldl_replicate_idem {α : Type} (f : α → α → α) (x : α)
    (hf : f x x = x) : ∀ k, (List.replicate k x).foldl f x = x := by
  intro k
  induction k with
  | zero => rfl
  | succ j ih => simpa [List.replicate, hf] using ih

/-- Helper: reducing a nonempty constant list of triples. -/
theorem foldTriples_replicate_succ (f : ℤ × ℤ × ℤ → ℤ × ℤ × ℤ → ℤ × ℤ × ℤ)
    (x : ℤ × ℤ × ℤ) (hf : f x x = x) (k : ℕ) :
    foldTriples f (List.replicate (k + 1) x) = x := by
  simp only [List.replicate, foldTriples]
  exact foldl_replicate_idem f x hf k

theorem pyBound_zero (n : ℕ) : pyBound n 0 = 0 := by
  simp [pyBound]

theorem pyBound_last (n : ℕ) (hn : 1 ≤ n) : pyBound n ((n : ℤ) - 1) = n - 1 := by
  unfold pyBound
  rw [if_neg (by omega)]
  omega

/-- Shared shape computation: on an all-zero stack no profile exceeds
its threshold, every per-axis bound falls back to the inclusive index
range [0, size-1], and the exclusive Python slice ends yield shape
(vo, slices-1, ch, h-1, w-1).  Stated for timestamp_mode off and
preview_crop_px 0 and any smoothing that fixes all-zero profiles (the
Gaussian filter does). -/
theorem DataRoi_get_all_zero_shape (smooth : List ℚ → List ℚ) (ratio : ℚ)
    (d : Stack5)
    (hzero : ∀ v z c y x, d.val v z c y x = 0)
    (hsm : ∀ n, smooth (List.replicate n 0) = List.replicate n 0)
    (hvo : 1 ≤ d.vo) (hch : 1 ≤ d.ch)
    (hs : 1 ≤ d.slices) (hh : 1 ≤ d.h) (hw : 1 ≤ d.w) :
    (DataRoi_get smooth ratio 0 "off" d).vo = d.vo ∧
    (DataRoi_get smooth ratio 0 "off" d).slices = d.slices - 1 ∧
    (DataRoi_get smooth ratio 0 "off" d).ch = d.ch ∧
    (DataRoi_get smooth ratio 0 "off" d).h = d.h - 1 ∧
    (DataRoi_get smooth ratio 0 "off" d).w = d.w - 1 := by
  have hB : ∀ v c, DataRoi_channel_bounds smooth ratio 0 0 d v c =
      ⟨0, 0, 0, (d.slices : ℤ) - 1, (d.h : ℤ) - 1, (d.w : ℤ) - 1⟩ :=
    fun v c => DataRoi_channel_bounds_zero smooth ratio d hzero hsm v c
  obtain ⟨cj, hcj⟩ : ∃ cj, d.ch = cj + 1 := ⟨d.ch - 1, by omega⟩
  obtain ⟨vj, hvj⟩ : ∃ vj, d.vo = vj + 1 := ⟨d.vo - 1, by omega⟩
  unfold DataRoi_get
  rw [if_neg (by decide : ¬("off" = "binary+ASCII"))]
  simp only [hB]
  rw [map_eq_replicate _ _ _ (fun i _ => rfl)]
  simp only [List.map_replicate, List.length_range]
  rw [map_eq_replicate _ _ _ (fun i _ => rfl)]
  simp only [List.map_replicate, List.length_range]
  rw [hcj, hvj]
  rw [foldTriples_replicate_succ tripleMin (0, 0, 0)
        (by simp [tripleMin]) cj,
      foldTriples_replicate_succ tripleMax
        ((d.slices : ℤ) - 1, (d.h : ℤ) - 1, (d.w : ℤ) - 1)
        (by simp [tripleMax]) cj]
  rw [foldTriples_replicate_succ tripleMin (0, 0, 0)
        (by simp [tripleMin]) vj,
      foldTriples_replicate_succ tripleMax
        ((d.slices : ℤ) - 1, (d.h : ℤ) - 1, (d.w : ℤ) - 1)
        (by simp [tripleMax]) vj]
  simp only [pyBound_zero, pyBound_last d.slices hs, pyBound_last d.h hh,
    pyBound_last d.w hw]
  exact ⟨trivial, by omega, trivial, by omega, by omega⟩

/-- C7 (amended): for every all-zero input stack, no smoothed axis
profile exceeds its threshold and every per-axis bound falls back to the
full inclusive index range [0, size-1]; since these bounds are used as
exclusive Python slice ends, DataRoi.get returns the box cropped to
(vo, slices-1, ch, h-1, w-1) — the input box minus the last plane along
each of the three cropped axes (empty along an axis of size 1) — rather
than the input box unchanged. -/
theorem C7_roi_all_zero_crop (smooth : List ℚ → List ℚ) (ratio : ℚ)
    (d : Stack5)
    (hzero : ∀ v z c y x, d.val v z c y x = 0)
    (hsm : ∀ n, smooth (List.replicate n 0) = List.replicate n 0)
    (hvo : 1 ≤ d.vo) (hch : 1 ≤ d.ch)
    (hs : 1 ≤ d.slices) (hh : 1 ≤ d.h) (hw : 1 ≤ d.w) :
    (DataRoi_get smooth ratio 0 "off" d).vo = d.vo ∧
    (DataRoi_get smooth ratio 0 "off" d).slices = d.slices - 1 ∧
    (DataRoi_get smooth ratio 0 "off" d).ch = d.ch ∧
    (DataRoi_get smooth ratio 0 "off" d).h = d.h - 1 ∧
    (DataRoi_get smooth ratio 0 "off" d).w = d.w - 1 :=
  DataRoi_get_all_zero_shape smooth ratio d hzero hsm hvo hch hs hh hw

/-- All-zero stack with a single slice (1, 1, 1, 4, 3). -/
def stack5AllZero : Stack5 :=
  { vo := 1, slices := 1, ch := 1, h := 4, w := 3
    val := fun _ _ _ _ _ => 0 }

/-- C7 counterexample: on the all-zero stack of shape (1, 1, 1, 4, 3)
with the default signal_to_bg_ratio 1.2, DataRoi.get does not return the
input box unchanged: the slice axis of the output is empty (0 instead of
1) and the height axis loses its last row (3 instead of 4). -/
theorem C7_roi_counterexample :
    (DataRoi_get (fun l => l) (6/5) 0 "off" stack5AllZero).slices = 0 ∧
    stack5AllZero.slices = 1 ∧
    (DataRoi_get (fun l => l) (6/5) 0 "off" stack5AllZero).h = 3 ∧
    stack5AllZero.h = 4 := by
  have h := DataRoi_get_all_zero_shape (fun l => l) (6/5) stack5AllZero
    (fun _ _ _ _ _ => rfl) (fun _ => rfl)
    (by norm_num [stack5AllZero]) (by norm_num [stack5AllZero])
    (by norm_num [stack5AllZero]) (by norm_num [stack5AllZero])
    (by norm_num [stack5AllZero])
  exact ⟨h.2.1, rfl, h.2.2.2.1, rfl⟩

/-- All-zero stack with two slices (1, 2, 1, 4, 3). -/
def stack5AllZero2 : Stack5 :=
  { vo := 1, slices := 2, ch := 1, h := 4, w := 3
    val := fun _ _ _ _ _ => 0 }

theorem C7_roi_all_zero_crop_witness :
    (DataRoi_get (fun l => l) (6/5) 0 "off" stack5AllZero2).slices =
      stack5AllZero2.slices - 1 :=
  (C7_roi_all_zero_crop (fun l => l) (6/5) stack5AllZero2
    (fun _ _ _ _ _ => rfl) (fun _ => rfl)
    (by norm_num [stack5AllZero2]) (by norm_num [stack5AllZero2])
    (by norm_num [stack5AllZero2]) (by norm_num [stack5AllZero2])
    (by norm_num [stack5AllZero2])).2.1

/-! ## Microscope settings state and apply_settings (source lines 506-727)

State fields mirror the attributes set by __init__ and apply_settings.
External collaborators (pco camera driver, stages, autofocus, scipy/
numpy trig) are gathered in MicroscopeEnv; float trig constants are
abstract rationals as above.  Python attributes that can transiently
hold either a float or an argument tuple (focus_piezo_z_um,
XY_stage_position_mm) are modelled as sums. -/

/-- Camera region of interest as returned by
pco_edge42_cl.legalize_image_size (external driver). -/
abbrev RoiPx := ℤ × ℤ × ℤ × ℤ

/-- External collaborators and trigonometric constants of apply_settings. -/
structure MicroscopeEnv where
  tanTilt : ℚ
  cosTilt : ℚ
  sinTilt : ℚ
  shearRatio : ℚ → ℚ
  sinTiltPlusDeg : ℚ → ℚ
  legalize_image_size : ℤ → ℤ → ℤ × ℤ × RoiPx
  rolling_time_us : ℚ
  sample_flag : Bool
  piezo_z : ℚ
  xy_position : ℚ × ℚ

structure MState where
  projection_mode : Bool
  projection_angle_deg : ℚ
  channels_per_slice : List String
  power_per_channel : List ℚ
  emission_filter : String
  illumination_time_us : ℚ
  height_px : ℤ
  width_px : ℤ
  timestamp_mode : String
  voxel_aspect_ratio : ℚ
  scan_range_um : ℚ
  volumes_per_buffer : ℤ
  autofocus_enabled : Bool
  sample_ri : ℚ
  ls_focus_adjust_v : ℚ
  ls_angular_dither_v : ℚ
  camera_preframes : ℤ
  max_bytes_per_buffer : ℤ
  max_data_buffers : ℤ
  max_preview_buffers : ℤ
  preview_line_px : ℤ
  preview_crop_px : ℤ
  focus_piezo_z_um : ℚ ⊕ (ℚ × String)
  XY_stage_position_mm : (ℚ × ℚ) ⊕ (ℚ × ℚ × String)
  zoom_lens_f_mm : ℚ
  M2 : ℚ
  MRR : ℚ
  Mtot : ℚ
  sample_px_um : ℚ
  scan_step_size_px : ℤ
  slices_per_volume : ℤ
  scan_step_size_um : ℚ
  galvo_shear_px : ℤ
  projection_height_px : ℤ
  roi_px : RoiPx
  images : ℤ
  bytes_per_data_buffer : ℤ
  preview_shape : ℤ × ℤ × ℤ × ℤ
  bytes_per_preview_buffer : ℤ
  total_bytes : ℤ
  data_buffer_exceeded : Bool
  preview_buffer_exceeded : Bool
  total_bytes_exceeded : Bool
  camera_num_images : ℤ
  settings_applied : Bool
  max_allocated_bytes : ℤ
  deriving DecidableEq

/-- The optional keyword arguments of apply_settings (source lines
506-532). -/
structure ApplyArgs where
  projection_mode : Option Bool := none
  projection_angle_deg : Option ℚ := none
  channels_per_slice : Option (List String) := none
  power_per_channel : Option (List ℚ) := none
  emission_filter : Option String := none
  illumination_time_us : Option ℚ := none
  height_px : Option ℤ := none
  width_px : Option ℤ := none
  timestamp_mode : Option String := none
  voxel_aspect_ratio : Option ℚ := none
  scan_range_um : Option ℚ := none
  volumes_per_buffer : Option ℤ := none
  autofocus_enabled : Option Bool := none
  focus_piezo_z_um : Option (ℚ × String) := none
  XY_stage_position_mm : Option (ℚ × ℚ × String) := none
  sample_ri : Option ℚ := none
  ls_focus_adjust_v : Option ℚ := none
  ls_angular_dither_v : Option ℚ := none
  camera_preframes : Option ℤ := none
  max_bytes_per_buffer : Option ℤ := none
  max_data_buffers : Option ℤ := none
  max_preview_buffers : Option ℤ := none
  preview_line_px : Option ℤ := none
  preview_crop_px : Option ℤ := none

/-- Source lines 537-541: settings_task first clears _settings_applied,
then setattr merges every non-None argument onto the current state. -/
def Microscope_merge_args (s : MState) (a : ApplyArgs) : MState :=
  { s with
    projection_mode := a.projection_mode.getD s.projection_mode
    projection_angle_deg := a.projection_angle_deg.getD s.projection_angle_deg
    channels_per_slice := a.channels_per_slice.getD s.channels_per_slice
    power_per_channel := a.power_per_channel.getD s.power_per_channel
    emission_filter := a.emission_filter.getD s.emission_filter
    illumination_time_us :=
      a.illumination_time_us.getD s.illumination_time_us
    height_px := a.height_px.getD s.height_px
    width_px := a.width_px.getD s.width_px
    timestamp_mode := a.timestamp_mode.getD s.timestamp_mode
    voxel_aspect_ratio := a.voxel_aspect_ratio.getD s.voxel_aspect_ratio
    scan_range_um := a.scan_range_um.getD s.scan_range_um
    volumes_per_buffer := a.volumes_per_buffer.getD s.volumes_per_buffer
    autofocus_enabled := a.autofocus_enabled.getD s.autofocus_enabled
    focus_piezo_z_um := match a.focus_piezo_z_um with
      | some t => Sum.inr t
      | none => s.focus_piezo_z_um
    XY_stage_position_mm := match a.XY_stage_position_mm with
      | some t => Sum.inr t
      | none => s.XY_stage_position_mm
    sample_ri := a.sample_ri.getD s.sample_ri
    ls_focus_adjust_v := a.ls_focus_adjust_v.getD s.ls_focus_adjust_v
    ls_angular_dither_v := a.ls_angular_dither_v.getD s.ls_angular_dither_v
    camera_preframes := a.camera_preframes.getD s.camera_preframes
    max_bytes_per_buffer := a.max_bytes_per_buffer.getD s.max_bytes_per_buffer
    max_data_buffers := a.max_data_buffers.getD s.max_data_buffers
    max_preview_buffers := a.max_preview_buffers.getD s.max_preview_buffers
    preview_line_px := a.preview_line_px.getD s.preview_line_px
    preview_crop_px := a.preview_crop_px.getD s.preview_crop_px
    settings_applied := false }

/-- Source lines 544-550: the geometry-recompute block runs when any of
these seven arguments was supplied. -/
def geometry_trigger (a : ApplyArgs) : Bool :=
  a.projection_mode.isSome || a.projection_angle_deg.isSome ||
  a.height_px.isSome || a.width_px.isSome ||
  a.voxel_aspect_ratio.isSome || a.scan_range_um.isSome ||
  a.sample_ri.isSome

/-- Python round(x, 1): round half to even at one decimal. -/
def pyRound1 (q : ℚ) : ℚ := (pyRound (10 * q) : ℚ) / 10

/-- Source lines 553-556: zoom_lens_f_mm = round(200 / sample_ri, 1),
clamped to 150. -/
def Microscope_new_zoom_lens_f_mm (s : MState) : ℚ :=
  let zoom_lens_f_mm0 := pyRound1 (200 / s.sample_ri)
  if zoom_lens_f_mm0 > 150 then 150 else zoom_lens_f_mm0

/-- Source line 557: M2 = 5 / zoom_lens_f_mm. -/
def Microscope_new_M2 (s : MState) : ℚ := 5 / Microscope_new_zoom_lens_f_mm s

/-- Source line 558: MRR = M1 * Mscan * M2. -/
def Microscope_new_MRR (s : MState) : ℚ := M1 * Mscan * Microscope_new_M2 s

/-- Source line 558: Mtot = MRR * M3. -/
def Microscope_new_Mtot (s : MState) : ℚ := Microscope_new_MRR s * M3

/-- Source line 559: sample_px_um = camera_px_um / Mtot. -/
def Microscope_new_sample_px_um (s : MState) : ℚ :=
  camera_px_um / Microscope_new_Mtot s

/-- Source lines 564-570: in projection mode the stored
voxel_aspect_ratio is overwritten with 0 before legalization, so the
legalized pair is computed from aspect ratio 0. -/
def Microscope_new_scan (env : MicroscopeEnv) (s : MState) : ℤ × ℤ :=
  calculate_cuboid_voxel_scan env.tanTilt env.cosTilt
    (Microscope_new_sample_px_um s)
    (if s.projection_mode then 0 else s.voxel_aspect_ratio)
    s.scan_range_um

/-- Source lines 575-578: the achieved scan range. -/
def Microscope_new_scan_range_um (env : MicroscopeEnv) (s : MState) : ℚ :=
  calculate_scan_range_um env.cosTilt (Microscope_new_sample_px_um s)
    (Microscope_new_scan env s).1 (Microscope_new_scan env s).2

/-- Source lines 582-586: galvo_shear_px from the law of sines. -/
def Microscope_new_galvo_shear_px (env : MicroscopeEnv) (s : MState) : ℤ :=
  pyRound ((Microscope_new_scan_range_um env s /
    Microscope_new_sample_px_um s) * env.shearRatio s.projection_angle_deg)

/-- Source lines 552-600 (successful path): the state after the
geometry-recompute block. -/
def Microscope_update_geometry_core (env : MicroscopeEnv) (a : ApplyArgs)
    (s : MState) : MState :=
  let pr := Microscope_new_scan env s
  let h_px := match a.height_px with
    | some h => h
    | none => s.height_px
  let w_px := match a.width_px with
    | some w => w
    | none => s.width_px
  let leg := env.legalize_image_size h_px w_px
  let base := { s with
    zoom_lens_f_mm := Microscope_new_zoom_lens_f_mm s
    M2 := Microscope_new_M2 s
    MRR := Microscope_new_MRR s
    Mtot := Microscope_new_Mtot s
    sample_px_um := Microscope_new_sample_px_um s
    voxel_aspect_ratio := calculate_voxel_aspect_ratio env.tanTilt pr.1
    scan_step_size_px := pr.1
    slices_per_volume := pr.2
    scan_step_size_um := calculate_scan_step_size_um env.cosTilt
      (Microscope_new_sample_px_um s) pr.1
    scan_range_um := Microscope_new_scan_range_um env s
    galvo_shear_px := Microscope_new_galvo_shear_px env s
    height_px := leg.1
    width_px := leg.2.1
    roi_px := leg.2.2
    projection_height_px := 0 }
  if s.projection_mode then
    let h_px2 := leg.1 + Microscope_new_galvo_shear_px env s
    let h_px3 := if h_px2 > 2048 then 2048 else h_px2
    let leg2 := env.legalize_image_size h_px3 w_px
    { base with
      width_px := leg2.2.1
      roi_px := leg2.2.2
      projection_height_px := leg2.1 }
  else base

/-- Source lines 552-600: re-derivation of sample_px_um and the scan
geometry, with the asserts modelled as errors. -/
def Microscope_update_geometry (env : MicroscopeEnv) (a : ApplyArgs)
    (s : MState) : Except String MState :=
  if ¬(133/100 ≤ s.sample_ri ∧ s.sample_ri ≤ 151/100) then
    .error "sample_ri out of range"
  else if ¬(0 ≤ s.projection_angle_deg ∧ s.projection_angle_deg ≤ 90) then
    .error "projection_angle_deg out of range"
  else if ¬(0 ≤ Microscope_new_scan_range_um env s ∧
      Microscope_new_scan_range_um env s ≤ 500) then
    .error "scan_range_um out of optical limit"
  else .ok (Microscope_update_geometry_core env a s)

/-- Source lines 937-976: DataPreview.shape. -/
def DataPreview_shape (env : MicroscopeEnv)
    (projection_mode : Bool) (projection_angle_deg : ℚ)
    (volumes_per_buffer slices_per_volume num_channels_per_slice : ℤ)
    (height_px width_px : ℤ) (sample_px_um : ℚ) (scan_step_size_px : ℤ)
    (preview_line_px preview_crop_px : ℤ) (timestamp_mode : String) :
    ℤ × ℤ × ℤ × ℤ :=
  let scan_step_size_um := calculate_scan_step_size_um env.cosTilt
    sample_px_um scan_step_size_px
  let prop_px_per_scan_step := scan_step_size_um /
    (sample_px_um * env.cosTilt)
  let prop_px_shear_max := pyRound
    (prop_px_per_scan_step * ((slices_per_volume : ℚ) - 1))
  let t_px : ℤ := if timestamp_mode = "binary+ASCII" then 8
    else preview_crop_px
  let b_px := preview_crop_px
  let h_px := height_px - t_px - b_px
  let x_px := width_px
  if projection_mode then
    let y_px := pyRound
      ((h_px : ℚ) * env.sinTiltPlusDeg projection_angle_deg)
    (volumes_per_buffer, num_channels_per_slice, y_px, x_px)
  else
    let y_px := pyRound (((h_px : ℚ) + (prop_px_shear_max : ℚ)) * env.cosTilt)
    let z_px := pyRound ((h_px : ℚ) * env.sinTilt)
    (volumes_per_buffer, num_channels_per_slice,
     y_px + z_px + 2 * preview_line_px, x_px + z_px + 2 * preview_line_px)

/-- Source lines 258-311: Microscope._check_memory. -/
def Microscope_check_memory (env : MicroscopeEnv) (s : MState) : MState :=
  let slices := if s.projection_mode then 1 else s.slices_per_volume
  let h_px := if s.projection_mode then s.projection_height_px else s.height_px
  let images := s.volumes_per_buffer * (s.channels_per_slice.length : ℤ) *
    slices
  let bytes_per_data_buffer := 2 * images * h_px * s.width_px
  let data_buffer_exceeded :=
    decide (bytes_per_data_buffer > s.max_bytes_per_buffer)
  let shape := DataPreview_shape env s.projection_mode
    s.projection_angle_deg s.volumes_per_buffer s.slices_per_volume
    (s.channels_per_slice.length : ℤ) h_px s.width_px s.sample_px_um
    s.scan_step_size_px s.preview_line_px s.preview_crop_px
    s.timestamp_mode
  let bytes_per_preview_buffer :=
    2 * (shape.1 * shape.2.1 * shape.2.2.1 * shape.2.2.2)
  let preview_buffer_exceeded :=
    decide (bytes_per_preview_buffer > s.max_bytes_per_buffer)
  let total_bytes := bytes_per_data_buffer * s.max_data_buffers +
    bytes_per_preview_buffer * s.max_preview_buffers
  let total_bytes_exceeded := decide (total_bytes > s.max_allocated_bytes)
  { s with
    images := images
    bytes_per_data_buffer := bytes_per_data_buffer
    data_buffer_exceeded := data_buffer_exceeded
    preview_shape := shape
    bytes_per_preview_buffer := bytes_per_preview_buffer
    preview_buffer_exceeded := preview_buffer_exceeded
    total_bytes := total_bytes
    total_bytes_exceeded := total_bytes_exceeded }

/-- Hardware commands issued by settings_task after the memory check
(source lines 607-720). -/
inductive HwCmd
  | moveXY (x y : ℚ) (mode : String)
  | setZoomLens (f_mm : ℚ)
  | moveFilterWheel (pos : ℤ)
  | autofocusServo (enable : Bool)
  | movePiezo (z : ℚ) (mode : String)
  | cameraReconfigure (roi : RoiPx) (exposure_us : ℚ)
  | setCameraTimestampMode (m : String)
  | writeVoltages
  deriving DecidableEq

/-- Source lines 40-49: emission_filter_options (the duplicate Python
dict key keeps only its last value, 9). -/
def emission_filter_options : List (String × ℤ) :=
  [("Shutter", 0), ("Open", 1), ("ET445/58M", 2), ("ET525/50M", 3),
   ("ET600/50M", 4), ("ET706/95M", 5), ("ZET405/488/561/640m", 6),
   ("(unused)", 9)]

/-- Source lines 660-666: arguments that force a camera reconfigure. -/
def camera_trigger (a : ApplyArgs) : Bool :=
  a.projection_mode.isSome || a.projection_angle_deg.isSome ||
  a.height_px.isSome || a.width_px.isSome ||
  a.illumination_time_us.isSome || a.scan_range_um.isSome ||
  a.sample_ri.isSome

/-- Source lines 675-687: arguments that force waveform resynthesis. -/
def waveform_trigger (a : ApplyArgs) : Bool :=
  a.projection_mode.isSome || a.projection_angle_deg.isSome ||
  a.channels_per_slice.isSome || a.power_per_channel.isSome ||
  a.height_px.isSome || a.illumination_time_us.isSome ||
  a.voxel_aspect_ratio.isSome || a.scan_range_um.isSome ||
  a.volumes_per_buffer.isSome || a.sample_ri.isSome ||
  a.ls_focus_adjust_v.isSome || a.ls_angular_dither_v.isSome ||
  a.camera_preframes.isSome

/-- The autofocus_enabled value after the hardware section: enabling is
demoted to False when no sample is detected (source lines 637-638). -/
def Microscope_autofocus_after (env : MicroscopeEnv) (a : ApplyArgs)
    (s : MState) : Bool :=
  if a.autofocus_enabled = some true ∧ env.sample_flag = false then false
  else s.autofocus_enabled

/-- The asserts and dict lookups of the hardware section (source lines
607-699), evaluated before any state publication in this model. -/
def Microscope_hardware_checks (env : MicroscopeEnv) (a : ApplyArgs)
    (s : MState) : Except String Unit := do
  match a.XY_stage_position_mm with
  | some t =>
    if t.2.2 = "relative" ∨ t.2.2 = "absolute" then pure ()
    else .error "XY mode assert"
  | none => pure ()
  match a.emission_filter with
  | some f =>
    match emission_filter_options.lookup f with
    | some _ => pure ()
    | none => .error "emission filter KeyError"
  | none => pure ()
  match a.focus_piezo_z_um with
  | some t =>
    if Microscope_autofocus_after env a s = false then
      if t.2 = "relative" ∨ t.2 = "absolute" then pure ()
      else .error "focus piezo mode assert"
    else
      if t = (0, "relative") then pure ()
      else .error "cannot move focus piezo with autofocus enabled"
  | none => pure ()
  if waveform_trigger a then
    if (∀ c ∈ s.channels_per_slice, c ∈ illumination_sources) ∧
        s.power_per_channel.length = s.channels_per_slice.length ∧
        (∀ p ∈ s.power_per_channel, 0 ≤ p ∧ p ≤ 100) ∧
        0 < s.volumes_per_buffer ∧
        (-(1/10) ≤ s.ls_focus_adjust_v ∧ s.ls_focus_adjust_v ≤ 1/10) ∧
        (0 ≤ s.ls_angular_dither_v ∧ s.ls_angular_dither_v ≤ 1) then
      pure ()
    else .error "waveform settings assert"
  else pure ()

/-- The state published by the hardware section on success (source
lines 625-721): demoted autofocus flag, refreshed piezo/stage
positions, camera.num_images, and _settings_applied = True.  The
memory-check flags are not touched. -/
def Microscope_hardware_state (env : MicroscopeEnv) (a : ApplyArgs)
    (s : MState) : MState :=
  { s with
    autofocus_enabled := Microscope_autofocus_after env a s
    focus_piezo_z_um :=
      if a.autofocus_enabled = some false ∨ a.focus_piezo_z_um.isSome then
        Sum.inl env.piezo_z
      else s.focus_piezo_z_um
    XY_stage_position_mm := Sum.inl env.xy_position
    camera_num_images :=
      if waveform_trigger a then s.images + s.camera_preframes
      else s.camera_num_images
    settings_applied := true }

/-- The hardware commands issued on success, in source order (lines
607-720). -/
def Microscope_hardware_cmds (env : MicroscopeEnv) (a : ApplyArgs)
    (s : MState) : List HwCmd :=
  (match a.XY_stage_position_mm with
    | some t => [HwCmd.moveXY t.1 t.2.1 t.2.2]
    | none => []) ++
  (if a.sample_ri.isSome then [HwCmd.setZoomLens s.zoom_lens_f_mm]
    else []) ++
  (match a.emission_filter with
    | some f => [HwCmd.moveFilterWheel
        ((emission_filter_options.lookup f).getD 0)]
    | none => []) ++
  (match a.autofocus_enabled with
    | some true => if env.sample_flag then [HwCmd.autofocusServo true]
        else []
    | some false => [HwCmd.autofocusServo false]
    | none => []) ++
  (match a.focus_piezo_z_um with
    | some t =>
      if Microscope_autofocus_after env a s = false then
        [HwCmd.movePiezo t.1 t.2]
      else []
    | none => []) ++
  (if camera_trigger a then
    [HwCmd.cameraReconfigure s.roi_px
      (s.illumination_time_us + env.rolling_time_us)]
    else []) ++
  (match a.timestamp_mode with
    | some m => [HwCmd.setCameraTimestampMode m]
    | none => []) ++
  (if waveform_trigger a then [HwCmd.writeVoltages] else [])

/-- Source lines 535-722: the settings_task body of apply_settings, as
a state transition returning the new state and the hardware commands
issued, or an error for a failed assert.  The task merges the arguments
onto the state, recomputes geometry when triggered, runs the memory
check, and on a failed memory check returns at once: no hardware
command is issued, but the merged state (with its recomputed geometry
and the exceeded flags) remains published. -/
def Microscope_geometry_step (env : MicroscopeEnv) (a : ApplyArgs)
    (s1 : MState) : Except String MState :=
  if geometry_trigger a then Microscope_update_geometry env a s1
  else .ok s1

def Microscope_apply_settings (env : MicroscopeEnv) (s0 : MState)
    (a : ApplyArgs) : Except String (MState × List HwCmd) :=
  match Microscope_geometry_step env a (Microscope_merge_args s0 a) with
  | .error e => .error e
  | .ok s2 =>
    if (Microscope_check_memory env s2).data_buffer_exceeded ||
        (Microscope_check_memory env s2).preview_buffer_exceeded ||
        (Microscope_check_memory env s2).total_bytes_exceeded then
      .ok (Microscope_check_memory env s2, [])
    else
      match Microscope_hardware_checks env a
          (Microscope_check_memory env s2) with
      | .error e => .error e
      | .ok _ =>
        .ok (Microscope_hardware_state env a
               (Microscope_check_memory env s2),
             Microscope_hardware_cmds env a
               (Microscope_check_memory env s2))

/-- Helper: a successful geometry recompute returns exactly the core
state update. -/
theorem update_geometry_ok (env : MicroscopeEnv) (a : ApplyArgs)
    (s s' : MState) (h : Microscope_update_geometry env a s = .ok s') :
    s' = Microscope_update_geometry_core env a s := by
  unfold Microscope_update_geometry at h
  split at h
  · exact Except.noConfusion h
  · split at h
    · exact Except.noConfusion h
    · split at h
      · exact Except.noConfusion h
      · rw [Except.ok.injEq] at h
        exact h.symm

/-- Helper: the geometry core update never touches _settings_applied. -/
theorem update_geometry_core_settings_applied (env : MicroscopeEnv)
    (a : ApplyArgs) (s : MState) :
    (Microscope_update_geometry_core env a s).settings_applied =
      s.settings_applied := by
  unfold Microscope_update_geometry_core
  repeat' split
  all_goals rfl

/-- Helper: the geometry recompute never touches _settings_applied. -/
theorem update_geometry_settings_applied (env : MicroscopeEnv)
    (a : ApplyArgs) (s s' : MState)
    (h : Microscope_update_geometry env a s = .ok s') :
    s'.settings_applied = s.settings_applied := by
  rw [update_geometry_ok env a s s' h]
  exact update_geometry_core_settings_applied env a s

/-- Helper: the whole geometry step never touches _settings_applied. -/
theorem geometry_step_settings_applied (env : MicroscopeEnv)
    (a : ApplyArgs) (s s' : MState)
    (h : Microscope_geometry_step env a s = .ok s') :
    s'.settings_applied = s.settings_applied := by
  unfold Microscope_geometry_step at h
  split at h
  · exact update_geometry_settings_applied env a s s' h
  · rw [Except.ok.injEq] at h
    rw [← h]

/-- C1 (amended): whenever the merged configuration fails the memory
check (any of the three exceeded flags is set), apply_settings issues
no hardware command and leaves _settings_applied False, so a following
acquire refuses to run; however the merged settings and recomputed
derived geometry remain stored (the state is mutated before the check
and is not rolled back). -/
theorem C1_memory_reject_no_hardware (env : MicroscopeEnv) (s0 : MState)
    (a : ApplyArgs) (s' : MState) (cmds : List HwCmd)
    (h : Microscope_apply_settings env s0 a = .ok (s', cmds))
    (hfail : s'.data_buffer_exceeded = true ∨
      s'.preview_buffer_exceeded = true ∨ s'.total_bytes_exceeded = true) :
    cmds = [] ∧ s'.settings_applied = false := by
  unfold Microscope_apply_settings at h
  split at h
  · exact Except.noConfusion h
  · rename_i s2 heq
    split at h
    · rw [Except.ok.injEq, Prod.mk.injEq] at h
      refine ⟨h.2.symm, ?_⟩
      rw [← h.1]
      have hchk : (Microscope_check_memory env s2).settings_applied =
          s2.settings_applied := rfl
      rw [hchk, geometry_step_settings_applied env a _ s2 heq]
      rfl
    · rename_i hflags
      split at h
      · exact Except.noConfusion h
      · rw [Except.ok.injEq, Prod.mk.injEq] at h
        exfalso
        rw [← h.1] at hfail
        have hd : (Microscope_hardware_state env a
            (Microscope_check_memory env s2)).data_buffer_exceeded =
            (Microscope_check_memory env s2).data_buffer_exceeded := rfl
        have hp : (Microscope_hardware_state env a
            (Microscope_check_memory env s2)).preview_buffer_exceeded =
            (Microscope_check_memory env s2).preview_buffer_exceeded := rfl
        have ht : (Microscope_hardware_state env a
            (Microscope_check_memory env s2)).total_bytes_exceeded =
            (Microscope_check_memory env s2).total_bytes_exceeded := rfl
        rw [hd, hp, ht] at hfail
        simp only [Bool.or_eq_true, not_or, Bool.not_eq_true] at hflags
        rcases hfail with hf | hf | hf
        · rw [hflags.1.1] at hf
          exact Bool.noConfusion hf
        · rw [hflags.1.2] at hf
          exact Bool.noConfusion hf
        · rw [hflags.2] at hf
          exact Bool.noConfusion hf

/-- Concrete environment for counterexamples/witnesses: abstract trig
constants as simple positive rationals, identity image-size legalizer,
sample present, stage/piezo at origin. -/
def microscopeEnvExample : MicroscopeEnv :=
  { tanTilt := 1, cosTilt := 1, sinTilt := 1
    shearRatio := fun _ => 0, sinTiltPlusDeg := fun _ => 1
    legalize_image_size := fun h w => (h, w, (0, 0, h, w))
    rolling_time_us := 0, sample_flag := true, piezo_z := 0
    xy_position := (0, 0) }

/-- A last-known-good state: every settings attribute set, memory limits
small enough that a tall image is rejected. -/
def mstateExample : MState :=
  { projection_mode := false, projection_angle_deg := 0
    channels_per_slice := ["488"], power_per_channel := [10]
    emission_filter := "Open", illumination_time_us := 100
    height_px := 100, width_px := 100, timestamp_mode := "off"
    voxel_aspect_ratio := 1, scan_range_um := 0
    volumes_per_buffer := 1, autofocus_enabled := false
    sample_ri := 3/2, ls_focus_adjust_v := 0, ls_angular_dither_v := 0
    camera_preframes := 1, max_bytes_per_buffer := 1000
    max_data_buffers := 4, max_preview_buffers := 4
    preview_line_px := 0, preview_crop_px := 0
    focus_piezo_z_um := Sum.inl 0, XY_stage_position_mm := Sum.inl (0, 0)
    zoom_lens_f_mm := 0, M2 := 0, MRR := 0, Mtot := 0, sample_px_um := 1
    scan_step_size_px := 1, slices_per_volume := 1, scan_step_size_um := 1
    galvo_shear_px := 0, projection_height_px := 0, roi_px := (0, 0, 0, 0)
    images := 1, bytes_per_data_buffer := 0, preview_shape := (0, 0, 0, 0)
    bytes_per_preview_buffer := 0, total_bytes := 0
    data_buffer_exceeded := false, preview_buffer_exceeded := false
    total_bytes_exceeded := false, camera_num_images := 2
    settings_applied := true, max_allocated_bytes := 1000000000 }

/-- apply_settings(height_px=4000): merged with mstateExample this
exceeds max_bytes_per_buffer. -/
def applyArgsHeight : ApplyArgs := { height_px := some 4000 }

/-- Helper: a successful geometry recompute, given the three asserts. -/
theorem update_geometry_ok_of (env : MicroscopeEnv) (a : ApplyArgs)
    (s : MState)
    (h1 : 133/100 ≤ s.sample_ri ∧ s.sample_ri ≤ 151/100)
    (h2 : 0 ≤ s.projection_angle_deg ∧ s.projection_angle_deg ≤ 90)
    (h3 : 0 ≤ Microscope_new_scan_range_um env s ∧
      Microscope_new_scan_range_um env s ≤ 500) :
    Microscope_update_geometry env a s =
      .ok (Microscope_update_geometry_core env a s) := by
  unfold Microscope_update_geometry
  rw [if_neg (not_not_intro h1), if_neg (not_not_intro h2),
    if_neg (not_not_intro h3)]

/-- Helper: a zero requested scan range legalizes to a single slice. -/
theorem new_scan_snd_of_range_zero (env : MicroscopeEnv) (s : MState)
    (h : s.scan_range_um = 0) : (Microscope_new_scan env s).2 = 1 := by
  unfold Microscope_new_scan calculate_cuboid_voxel_scan
  simp [h, pyRound_zero]

/-- Helper: a zero requested scan range gives a zero achieved range. -/
theorem new_scan_range_of_range_zero (env : MicroscopeEnv) (s : MState)
    (h : s.scan_range_um = 0) : Microscope_new_scan_range_um env s = 0 := by
  unfold Microscope_new_scan_range_um calculate_scan_range_um
  rw [new_scan_snd_of_range_zero env s h]
  simp

/-- The merged state of the C1 example call. -/
def mstateMergedC1 : MState :=
  Microscope_merge_args mstateExample applyArgsHeight

/-- The state published by the rejected C1 example call. -/
def mstateRejectedC1 : MState :=
  Microscope_check_memory microscopeEnvExample
    (Microscope_update_geometry_core microscopeEnvExample applyArgsHeight
      mstateMergedC1)

theorem mstateMergedC1_range : mstateMergedC1.scan_range_um = 0 := rfl

theorem exC1_geometry :
    Microscope_update_geometry microscopeEnvExample applyArgsHeight
      mstateMergedC1 =
      .ok (Microscope_update_geometry_core microscopeEnvExample
        applyArgsHeight mstateMergedC1) :=
  update_geometry_ok_of _ _ _ (by norm_num [mstateMergedC1,
      Microscope_merge_args, mstateExample, applyArgsHeight])
    (by norm_num [mstateMergedC1, Microscope_merge_args, mstateExample,
      applyArgsHeight])
    (by rw [new_scan_range_of_range_zero _ _ mstateMergedC1_range]; norm_num)

/-- Helper: the geometry core takes its slice count from the legalized
scan pair. -/
theorem update_geometry_core_slices (env : MicroscopeEnv) (a : ApplyArgs)
    (s : MState) :
    (Microscope_update_geometry_core env a s).slices_per_volume =
      (Microscope_new_scan env s).2 := by
  unfold Microscope_update_geometry_core
  repeat' split
  all_goals rfl

theorem exC1_core_slices :
    (Microscope_update_geometry_core microscopeEnvExample applyArgsHeight
      mstateMergedC1).slices_per_volume = 1 := by
  rw [update_geometry_core_slices]
  exact new_scan_snd_of_range_zero _ _ mstateMergedC1_range

theorem exC1_data_exceeded :
    mstateRejectedC1.data_buffer_exceeded = true := by
  show (Microscope_check_memory microscopeEnvExample
    (Microscope_update_geometry_core microscopeEnvExample applyArgsHeight
      mstateMergedC1)).data_buffer_exceeded = true
  unfold Microscope_check_memory
  simp only [exC1_core_slices]
  rw [show (Microscope_update_geometry_core microscopeEnvExample
      applyArgsHeight mstateMergedC1).projection_mode = false from rfl]
  rw [show (Microscope_update_geometry_core microscopeEnvExample
      applyArgsHeight mstateMergedC1).height_px = 4000 from rfl]
  rw [show (Microscope_update_geometry_core microscopeEnvExample
      applyArgsHeight mstateMergedC1).width_px = 100 from rfl]
  rw [show (Microscope_update_geometry_core microscopeEnvExample
      applyArgsHeight mstateMergedC1).volumes_per_buffer = 1 from rfl]
  rw [show (Microscope_update_geometry_core microscopeEnvExample
      applyArgsHeight mstateMergedC1).channels_per_slice = ["488"] from rfl]
  rw [show (Microscope_update_geometry_core microscopeEnvExample
      applyArgsHeight mstateMergedC1).max_bytes_per_buffer = 1000 from rfl]
  decide

theorem exC1_apply :
    Microscope_apply_settings microscopeEnvExample mstateExample
      applyArgsHeight = .ok (mstateRejectedC1, []) := by
  unfold Microscope_apply_settings
  rw [show Microscope_geometry_step microscopeEnvExample applyArgsHeight
      (Microscope_merge_args mstateExample applyArgsHeight) =
      .ok (Microscope_update_geometry_core microscopeEnvExample
        applyArgsHeight mstateMergedC1) from exC1_geometry]
  have hflag : (Microscope_check_memory microscopeEnvExample
      (Microscope_update_geometry_core microscopeEnvExample applyArgsHeight
        mstateMergedC1)).data_buffer_exceeded = true := exC1_data_exceeded
  simp only [hflag, Bool.true_or, if_true]
  rfl

/-- C1 counterexample: this apply_settings call fails the memory check
(data_buffer_exceeded), issues no hardware command — but the previously
applied settings are NOT left unchanged: height_px was 100 and is 4000
in the resulting state (the merged, recomputed state is published). -/
theorem C1_counterexample_state_mutated :
    ((Microscope_apply_settings microscopeEnvExample mstateExample
        applyArgsHeight).toOption.map
      (fun r => (r.1.height_px, r.1.data_buffer_exceeded,
                 r.1.settings_applied, r.2))) =
      some (4000, true, false, ([] : List HwCmd)) ∧
    mstateExample.height_px = 100 ∧
    mstateExample.settings_applied = true := by
  refine ⟨?_, rfl, rfl⟩
  rw [exC1_apply]
  simp only [Except.toOption, Option.map, Option.some.injEq]
  rw [exC1_data_exceeded,
    show mstateRejectedC1.height_px = 4000 from rfl,
    show mstateRejectedC1.settings_applied = false from rfl]

theorem C1_memory_reject_no_hardware_witness :
    ((Microscope_apply_settings microscopeEnvExample mstateExample
        applyArgsHeight).toOption.map (fun r => r.2)) =
      some ([] : List HwCmd) := by
  have h := C1_memory_reject_no_hardware microscopeEnvExample
    mstateExample applyArgsHeight mstateRejectedC1 [] exC1_apply
    (Or.inl exC1_data_exceeded)
  rw [exC1_apply]
  simp [Except.toOption, h.1]

/-- Source lines 782-783 in acquire_task: sl = self.slices_per_volume;
if self.projection_mode: sl = 1. -/
def Microscope_acquire_slices (s : MState) : ℤ :=
  if s.projection_mode then 1 else s.slices_per_volume

/-- The VoltageConfig that _calculate_voltages reads from the settings
state (plus the ao/camera timing counts from the external drivers). -/
def Microscope_voltage_config (s : MState)
    (exposure_px rolling_px jitter_raw_px : ℕ) : VoltageConfig :=
  { num_channels := 21
    exposure_px := exposure_px, rolling_px := rolling_px
    jitter_raw_px := jitter_raw_px
    camera_preframes := s.camera_preframes.toNat
    volumes_per_buffer := s.volumes_per_buffer.toNat
    projection_mode := s.projection_mode
    slices_per_volume := s.slices_per_volume.toNat
    channels_per_slice := s.channels_per_slice
    power_per_channel := s.power_per_channel
    scan_range_um := s.scan_range_um
    galvo_shear_px := s.galvo_shear_px
    ls_focus_adjust_v := s.ls_focus_adjust_v
    ls_angular_dither_v := s.ls_angular_dither_v }

/-- Helper: legalizing an aspect ratio of 0 gives integer step 1. -/
theorem cuboid_scan_fst_zero (tanTilt cosTilt sample_px_um
    scan_range_um : ℚ) :
    (calculate_cuboid_voxel_scan tanTilt cosTilt sample_px_um 0
      scan_range_um).1 = 1 := by
  unfold calculate_cuboid_voxel_scan
  simp only [zero_div, pyRound_zero]
  decide

/-- Helper: the geometry core keeps projection_mode and takes its
integer step from the legalized scan pair. -/
theorem update_geometry_core_fields (env : MicroscopeEnv) (a : ApplyArgs)
    (s : MState) :
    (Microscope_update_geometry_core env a s).scan_step_size_px =
      (Microscope_new_scan env s).1 ∧
    (Microscope_update_geometry_core env a s).projection_mode =
      s.projection_mode := by
  unfold Microscope_update_geometry_core
  repeat' split
  all_goals exact ⟨rfl, rfl⟩

/-- C10: when projection_mode is true, apply_settings overwrites the
stored voxel_aspect_ratio with 0 before legalization, so the legalized
scan_step_size_px is exactly 1; voltage synthesis and acquisition then
both use exactly one slice per volume, whatever slices_per_volume was
computed. -/
theorem C10_projection_mode_one_slice (env : MicroscopeEnv)
    (a : ApplyArgs) (s0 s' : MState)
    (hpm : (Microscope_merge_args s0 a).projection_mode = true)
    (h : Microscope_update_geometry env a (Microscope_merge_args s0 a) =
      .ok s') :
    s'.scan_step_size_px = 1 ∧
    s'.projection_mode = true ∧
    (∀ exposure_px rolling_px jitter_raw_px,
      Microscope_voltages_slices
        (Microscope_voltage_config s' exposure_px rolling_px
          jitter_raw_px) = 1) ∧
    Microscope_acquire_slices s' = 1 := by
  rw [update_geometry_ok env a _ s' h]
  have hfields := update_geometry_core_fields env a
    (Microscope_merge_args s0 a)
  have hpm2 : (Microscope_update_geometry_core env a
      (Microscope_merge_args s0 a)).projection_mode = true := by
    rw [hfields.2, hpm]
  have hstep : (Microscope_update_geometry_core env a
      (Microscope_merge_args s0 a)).scan_step_size_px = 1 := by
    rw [hfields.1]
    unfold Microscope_new_scan
    rw [hpm, if_pos rfl]
    exact cuboid_scan_fst_zero _ _ _ _
  refine ⟨hstep, hpm2, ?_, ?_⟩
  · intro e r j
    unfold Microscope_voltages_slices Microscope_voltage_config
    simp only [hpm2, if_true]
  · unfold Microscope_acquire_slices
    simp only [hpm2, if_true]

/-- apply_settings(projection_mode=True). -/
def applyArgsProjection : ApplyArgs := { projection_mode := some true }

theorem mstateMergedC10_range :
    (Microscope_merge_args mstateExample
      applyArgsProjection).scan_range_um = 0 := rfl

theorem exC10_geometry :
    Microscope_update_geometry microscopeEnvExample applyArgsProjection
      (Microscope_merge_args mstateExample applyArgsProjection) =
      .ok (Microscope_update_geometry_core microscopeEnvExample
        applyArgsProjection
        (Microscope_merge_args mstateExample applyArgsProjection)) :=
  update_geometry_ok_of _ _ _
    (by norm_num [Microscope_merge_args, mstateExample, applyArgsProjection])
    (by norm_num [Microscope_merge_args, mstateExample, applyArgsProjection])
    (by rw [new_scan_range_of_range_zero _ _ mstateMergedC10_range]
        norm_num)

theorem C10_projection_mode_one_slice_witness :
    ((Microscope_update_geometry microscopeEnvExample applyArgsProjection
        (Microscope_merge_args mstateExample applyArgsProjection)).toOption.map
      (fun s => s.scan_step_size_px)) = some 1 := by
  have h := C10_projection_mode_one_slice microscopeEnvExample
    applyArgsProjection mstateExample _ rfl exC10_geometry
  rw [exC10_geometry]
  simp [Except.toOption, h.1]
